import Mathlib

/-! ArduRemoteID, `RemoteIDModule/mavlink.cpp`: the MAVLink link session.

A shallow embedding of `MAVLinkSerial` (the per-channel session that keeps the
latest OpenDroneID messages with their freshness timestamps, emits the heartbeat
and the arm status, and answers the `initialised` / `system_valid` /
`location_valid` queries), followed by the properties proved about it.

Conventions of the embedding.

* `uint32_t` values are natural numbers below `2^32`; the only arithmetic the file
  does on them that can wrap is the subtraction of two timestamps, `sub32`.
* `millis()` is an input: every function that calls it takes the value it read.
* The generated MAVLink headers and `mavlink.h` are not part of the sources at hand.
  The constants, flag values and decoders they declare are parameters
  (`Codec`, `PktFlags`); nothing is assumed about them beyond what a theorem states.
  The payload types they declare are modelled by the fields this file reads.
* A call of a generated `mavlink_msg_*_send` function is recorded as a `Frame`.
* `serial.available()` is an input as well; the bytes `serial.read()` delivers are a
  list, oldest first. The frame parser `mavlink_parse_char` is a parameter.
* The array `serial_ports` is the list of its entries; a store outside the array is
  undefined behaviour and is rendered as `none`.
-/

namespace RemoteID

/-! ## Machine arithmetic -/

/-- The `uint32_t` subtraction `a - b` of two operands below `2^32`: the difference
modulo `2^32`. -/
def sub32 (a b : Nat) : Nat := (a + 4294967296 - b) % 4294967296

/-- The age `now - last` as the true difference of the two readings, reduced
modulo `2^32` in the integers (the wording of the specification). -/
def ageSpec (now last : Nat) : Int := ((now : Int) - (last : Int)) % 4294967296

/-! ## Data model -/

/-- Modelled from the spec: `mavlink_message_t` is declared in the generated headers;
a completed frame as the frame parser hands it over, with its message id and its
payload bytes. -/
structure mavlink_message_t where
  msgid : Nat
  payload : List Nat
deriving DecidableEq, Repr

/-- Modelled from the spec: `mavlink_open_drone_id_location_t` is declared in the
generated headers; the decoded location payload, with the two fields that
`arm_status_send` reads (signed integers). -/
structure mavlink_open_drone_id_location_t where
  latitude : Int
  longitude : Int
deriving DecidableEq, Repr

/-- Modelled from the spec: `mavlink_open_drone_id_system_t` is declared in the
generated headers; the decoded system payload, with the two fields that
`arm_status_send` reads (signed integers). -/
structure mavlink_open_drone_id_system_t where
  operator_latitude : Int
  operator_longitude : Int
deriving DecidableEq, Repr

/-- Modelled from the spec: the payload types of the basic id, self id, operator id
and authentication messages are declared in the generated headers; the decoded
payload of such a message, none of whose fields is read in this file, kept whole. -/
structure odid_payload_t where
  data : List Nat
deriving DecidableEq, Repr

/-- What the generated MAVLink headers declare and `mavlink.cpp` uses: the message
ids of the `switch` in `process_packet`, the decoders, the two arm status codes and
the two heartbeat constants. They are parameters of the embedding. -/
structure Codec where
  MAVLINK_MSG_ID_OPEN_DRONE_ID_LOCATION : Nat
  MAVLINK_MSG_ID_OPEN_DRONE_ID_BASIC_ID : Nat
  MAVLINK_MSG_ID_OPEN_DRONE_ID_AUTHENTICATION : Nat
  MAVLINK_MSG_ID_OPEN_DRONE_ID_SELF_ID : Nat
  MAVLINK_MSG_ID_OPEN_DRONE_ID_SYSTEM : Nat
  MAVLINK_MSG_ID_OPEN_DRONE_ID_OPERATOR_ID : Nat
  mavlink_msg_open_drone_id_location_decode : mavlink_message_t → mavlink_open_drone_id_location_t
  mavlink_msg_open_drone_id_basic_id_decode : mavlink_message_t → odid_payload_t
  mavlink_msg_open_drone_id_authentication_decode : mavlink_message_t → odid_payload_t
  mavlink_msg_open_drone_id_self_id_decode : mavlink_message_t → odid_payload_t
  mavlink_msg_open_drone_id_system_decode : mavlink_message_t → mavlink_open_drone_id_system_t
  mavlink_msg_open_drone_id_operator_id_decode : mavlink_message_t → odid_payload_t
  MAV_ODID_GOOD_TO_ARM : Nat
  MAV_ODID_PRE_ARM_FAIL_GENERIC : Nat
  MAV_TYPE_ODID : Nat
  MAV_AUTOPILOT_ARDUPILOTMEGA : Nat

/-- The `PKT_*` flags of `packets_received_mask`, declared in `mavlink.h`. They are
parameters of the embedding. -/
structure PktFlags where
  PKT_LOCATION : Nat
  PKT_BASIC_ID : Nat
  PKT_AUTHENTICATION : Nat
  PKT_SELF_ID : Nat
  PKT_SYSTEM : Nat
  PKT_OPERATOR_ID : Nat
deriving DecidableEq, Repr

/-- The members of `MAVLinkSerial` that the functions of `mavlink.cpp` read or write
(the serial endpoint apart). -/
structure Session where
  chan : Nat
  last_hb_ms : Nat
  packets_received_mask : Nat
  last_location_ms : Nat
  last_basic_id_ms : Nat
  last_self_id_ms : Nat
  last_operator_id_ms : Nat
  last_system_ms : Nat
  location : mavlink_open_drone_id_location_t
  basic_id : odid_payload_t
  authentication : odid_payload_t
  self_id : odid_payload_t
  system : mavlink_open_drone_id_system_t
  operator_id : odid_payload_t
deriving DecidableEq, Repr

/-- A frame handed to the codec for sending: the arguments of the call of
`mavlink_msg_heartbeat_send` or of `mavlink_msg_open_drone_id_arm_status_send`. -/
inductive Frame where
  | heartbeat (chan mav_type autopilot base_mode custom_mode system_status : Nat)
  | open_drone_id_arm_status (chan status : Nat) (reason : String)
deriving DecidableEq, Repr

/-! ## The functions of `mavlink.cpp` -/

/-- `MAVLinkSerial::arm_status_send`, with `now_ms` the value its `millis()` call
returns: the arm status frame it sends. -/
def arm_status_send (c : Codec) (s : Session) (now_ms : Nat) : Frame :=
  let max_age_location_ms := 3000
  let max_age_other_ms := 22000
  let verdict : Nat × String :=
    if s.last_location_ms = 0 ∨ sub32 now_ms s.last_location_ms > max_age_location_ms then
      (c.MAV_ODID_PRE_ARM_FAIL_GENERIC, "missing location message")
    else if s.last_basic_id_ms = 0 ∨ sub32 now_ms s.last_basic_id_ms > max_age_other_ms then
      (c.MAV_ODID_PRE_ARM_FAIL_GENERIC, "missing basic_id message")
    else if s.last_self_id_ms = 0 ∨ sub32 now_ms s.last_self_id_ms > max_age_other_ms then
      (c.MAV_ODID_PRE_ARM_FAIL_GENERIC, "missing self_id message")
    else if s.last_operator_id_ms = 0 ∨
        sub32 now_ms s.last_operator_id_ms > max_age_other_ms then
      (c.MAV_ODID_PRE_ARM_FAIL_GENERIC, "missing operator_id message")
    else if s.last_system_ms = 0 ∨ sub32 now_ms s.last_system_ms > max_age_other_ms then
      (c.MAV_ODID_PRE_ARM_FAIL_GENERIC, "missing system message")
    else if s.location.latitude = 0 ∧ s.location.longitude = 0 then
      (c.MAV_ODID_PRE_ARM_FAIL_GENERIC, "Bad location")
    else if s.system.operator_latitude = 0 ∧ s.system.operator_longitude = 0 then
      (c.MAV_ODID_PRE_ARM_FAIL_GENERIC, "Bad operator location")
    else
      (c.MAV_ODID_GOOD_TO_ARM, "")
  Frame.open_drone_id_arm_status s.chan verdict.1 verdict.2

/-- `MAVLinkSerial::update_send`, with `now_ms` the value its own `millis()` call
returns and `now_arm` the value read by the `millis()` call inside
`arm_status_send`: the new state and the frames sent, in order. -/
def update_send (c : Codec) (s : Session) (now_ms now_arm : Nat) : Session × List Frame :=
  if sub32 now_ms s.last_hb_ms ≥ 1000 then
    let s1 := { s with last_hb_ms := now_ms }
    (s1, [Frame.heartbeat s1.chan c.MAV_TYPE_ODID c.MAV_AUTOPILOT_ARDUPILOTMEGA 0 0 0,
          arm_status_send c s1 now_arm])
  else
    (s, [])

/-- `MAVLinkSerial::process_packet`, with `now_ms` the value its `millis()` call
returns. The `switch` on `msg.msgid` is a chain of tests in the order of its `case`
labels (the labels of a `switch` are pairwise different); the `status` argument is
not used by the body. -/
def process_packet (c : Codec) (p : PktFlags) (s : Session) (now_ms : Nat)
    (msg : mavlink_message_t) : Session :=
  if msg.msgid = c.MAVLINK_MSG_ID_OPEN_DRONE_ID_LOCATION then
    { s with
      location := c.mavlink_msg_open_drone_id_location_decode msg
      packets_received_mask := s.packets_received_mask ||| p.PKT_LOCATION
      last_location_ms := now_ms }
  else if msg.msgid = c.MAVLINK_MSG_ID_OPEN_DRONE_ID_BASIC_ID then
    { s with
      basic_id := c.mavlink_msg_open_drone_id_basic_id_decode msg
      packets_received_mask := s.packets_received_mask ||| p.PKT_BASIC_ID
      last_basic_id_ms := now_ms }
  else if msg.msgid = c.MAVLINK_MSG_ID_OPEN_DRONE_ID_AUTHENTICATION then
    { s with
      authentication := c.mavlink_msg_open_drone_id_authentication_decode msg
      packets_received_mask := s.packets_received_mask ||| p.PKT_AUTHENTICATION }
  else if msg.msgid = c.MAVLINK_MSG_ID_OPEN_DRONE_ID_SELF_ID then
    { s with
      self_id := c.mavlink_msg_open_drone_id_self_id_decode msg
      packets_received_mask := s.packets_received_mask ||| p.PKT_SELF_ID
      last_self_id_ms := now_ms }
  else if msg.msgid = c.MAVLINK_MSG_ID_OPEN_DRONE_ID_SYSTEM then
    { s with
      system := c.mavlink_msg_open_drone_id_system_decode msg
      packets_received_mask := s.packets_received_mask ||| p.PKT_SYSTEM
      last_system_ms := now_ms }
  else if msg.msgid = c.MAVLINK_MSG_ID_OPEN_DRONE_ID_OPERATOR_ID then
    { s with
      operator_id := c.mavlink_msg_open_drone_id_operator_id_decode msg
      packets_received_mask := s.packets_received_mask ||| p.PKT_OPERATOR_ID
      last_operator_id_ms := now_ms }
  else
    s

/-- `MAVLinkSerial::initialised`. -/
def initialised (p : PktFlags) (s : Session) : Bool :=
  let required :=
    p.PKT_LOCATION ||| p.PKT_BASIC_ID ||| p.PKT_SELF_ID ||| p.PKT_SYSTEM ||| p.PKT_OPERATOR_ID
  decide (s.packets_received_mask &&& required = required)

/-- `MAVLinkSerial::system_valid`, with `now_ms` the value its `millis()` call
returns. -/
def system_valid (s : Session) (now_ms : Nat) : Bool :=
  let max_ms := 15000
  if s.last_system_ms = 0 ∨ s.last_self_id_ms = 0 ∨ s.last_basic_id_ms = 0 ∨
      s.last_operator_id_ms = 0 then
    false
  else
    decide (sub32 now_ms s.last_system_ms < max_ms) &&
    decide (sub32 now_ms s.last_self_id_ms < max_ms) &&
    decide (sub32 now_ms s.last_basic_id_ms < max_ms) &&
    decide (sub32 now_ms s.last_operator_id_ms < max_ms)

/-- `MAVLinkSerial::location_valid`, with `now_ms` the value its `millis()` call
returns. -/
def location_valid (s : Session) (now_ms : Nat) : Bool :=
  let max_ms := 2000
  decide (s.last_location_ms ≠ 0) && decide (sub32 now_ms s.last_location_ms < max_ms)

/-! ## Well-formedness of states and parameters -/

/-- Every timestamp of the session is a `uint32_t` value. -/
def Session.InRange (s : Session) : Prop :=
  s.last_hb_ms < 4294967296 ∧ s.last_location_ms < 4294967296 ∧
  s.last_basic_id_ms < 4294967296 ∧ s.last_self_id_ms < 4294967296 ∧
  s.last_operator_id_ms < 4294967296 ∧ s.last_system_ms < 4294967296

instance (s : Session) : Decidable s.InRange := by
  unfold Session.InRange; infer_instance

/-- Flag `flag` is set in `mask`: every bit of the flag is present,
`(mask & flag) == flag`. -/
def bitSet (mask flag : Nat) : Prop := mask &&& flag = flag

instance (mask flag : Nat) : Decidable (bitSet mask flag) := by
  unfold bitSet; infer_instance

/-- The value is a single bit of a `uint32_t`. -/
def IsBit (f : Nat) : Prop := ∃ i, i < 32 ∧ f = 2 ^ i

instance (f : Nat) : Decidable (IsBit f) := by
  unfold IsBit; infer_instance

/-- The six flags, in the order of their use in `process_packet`. -/
def PktFlags.toList (p : PktFlags) : List Nat :=
  [p.PKT_LOCATION, p.PKT_BASIC_ID, p.PKT_AUTHENTICATION, p.PKT_SELF_ID, p.PKT_SYSTEM,
    p.PKT_OPERATOR_ID]

/-- The six `PKT_*` flags are six different bits of the mask. -/
def PktFlags.DistinctBits (p : PktFlags) : Prop :=
  (∀ f ∈ p.toList, IsBit f) ∧ p.toList.Nodup

instance (p : PktFlags) : Decidable p.DistinctBits := by
  unfold PktFlags.DistinctBits; infer_instance

/-- The six message ids that label the cases of the `switch` in `process_packet`. -/
def Codec.caseLabels (c : Codec) : List Nat :=
  [c.MAVLINK_MSG_ID_OPEN_DRONE_ID_LOCATION, c.MAVLINK_MSG_ID_OPEN_DRONE_ID_BASIC_ID,
    c.MAVLINK_MSG_ID_OPEN_DRONE_ID_AUTHENTICATION, c.MAVLINK_MSG_ID_OPEN_DRONE_ID_SELF_ID,
    c.MAVLINK_MSG_ID_OPEN_DRONE_ID_SYSTEM, c.MAVLINK_MSG_ID_OPEN_DRONE_ID_OPERATOR_ID]

/-- The ids of the five message types that `initialised` requires. -/
def Codec.requiredIds (c : Codec) : List Nat :=
  [c.MAVLINK_MSG_ID_OPEN_DRONE_ID_LOCATION, c.MAVLINK_MSG_ID_OPEN_DRONE_ID_BASIC_ID,
    c.MAVLINK_MSG_ID_OPEN_DRONE_ID_SELF_ID, c.MAVLINK_MSG_ID_OPEN_DRONE_ID_SYSTEM,
    c.MAVLINK_MSG_ID_OPEN_DRONE_ID_OPERATOR_ID]

/-- The case labels of the `switch` are pairwise different (C++ rejects a `switch`
with a repeated label). -/
def Codec.CaseLabelsDistinct (c : Codec) : Prop := c.caseLabels.Nodup

instance (c : Codec) : Decidable c.CaseLabelsDistinct := by
  unfold Codec.CaseLabelsDistinct; infer_instance

/-- A session on which nothing has happened yet: empty mask and every timestamp 0
(the payload slots are arbitrary). -/
def Session.Fresh (s : Session) : Prop :=
  s.packets_received_mask = 0 ∧ s.last_hb_ms = 0 ∧ s.last_location_ms = 0 ∧
  s.last_basic_id_ms = 0 ∧ s.last_self_id_ms = 0 ∧ s.last_operator_id_ms = 0 ∧
  s.last_system_ms = 0

instance (s : Session) : Decidable s.Fresh := by
  unfold Session.Fresh; infer_instance

/-- A freshness check of the arm evaluator passes: the negation of its failure test
`last == 0 || now - last > max_age`. -/
def checkPasses (last now max_age : Nat) : Prop := last ≠ 0 ∧ sub32 now last ≤ max_age

instance (last now max_age : Nat) : Decidable (checkPasses last now max_age) := by
  unfold checkPasses; infer_instance

/-- The invariant that relates timestamps and mask: a nonzero timestamp of one of the
five timestamped types implies the flag of that type. -/
def Session.TimestampsImplyFlags (p : PktFlags) (s : Session) : Prop :=
  (s.last_location_ms ≠ 0 → bitSet s.packets_received_mask p.PKT_LOCATION) ∧
  (s.last_basic_id_ms ≠ 0 → bitSet s.packets_received_mask p.PKT_BASIC_ID) ∧
  (s.last_self_id_ms ≠ 0 → bitSet s.packets_received_mask p.PKT_SELF_ID) ∧
  (s.last_system_ms ≠ 0 → bitSet s.packets_received_mask p.PKT_SYSTEM) ∧
  (s.last_operator_id_ms ≠ 0 → bitSet s.packets_received_mask p.PKT_OPERATOR_ID)

/-- The effect of `mask |= flag` as a relation between the mask before and after: the
flag is set, and every bit outside the flag is as before. -/
def maskGains (before after flag : Nat) : Prop :=
  bitSet after flag ∧ ∀ i, flag.testBit i = false → after.testBit i = before.testBit i

/-! ## Runs of the session -/

/-- One call on the session: `process_packet` on a completed frame, or `update_send`;
each with the clock readings its `millis()` calls return. -/
inductive Op where
  | packet (now_ms : Nat) (msg : mavlink_message_t)
  | send (now_ms now_arm : Nat)
deriving DecidableEq, Repr

/-- The state after one call. -/
def step (c : Codec) (p : PktFlags) (s : Session) : Op → Session
  | Op.packet now_ms msg => process_packet c p s now_ms msg
  | Op.send now_ms now_arm => (update_send c s now_ms now_arm).1

/-- The state after a sequence of calls, first call first. -/
def run (c : Codec) (p : PktFlags) (s : Session) (ops : List Op) : Session :=
  ops.foldl (step c p) s

/-- The message ids of the frames a sequence of calls has processed. -/
def processedIds : List Op → List Nat
  | [] => []
  | Op.packet _ msg :: ops => msg.msgid :: processedIds ops
  | Op.send _ _ :: ops => processedIds ops

/-! ## The arm evaluator as the specification words it -/

/-- The seven checks of the arm evaluator in the order of the specification's table:
for each, whether it fails and the reason reported when it does. -/
def armChecks (s : Session) (now : Nat) : List (Bool × String) :=
  [ (decide (s.last_location_ms = 0 ∨ ageSpec now s.last_location_ms > 3000),
      "missing location message"),
    (decide (s.last_basic_id_ms = 0 ∨ ageSpec now s.last_basic_id_ms > 22000),
      "missing basic_id message"),
    (decide (s.last_self_id_ms = 0 ∨ ageSpec now s.last_self_id_ms > 22000),
      "missing self_id message"),
    (decide (s.last_operator_id_ms = 0 ∨ ageSpec now s.last_operator_id_ms > 22000),
      "missing operator_id message"),
    (decide (s.last_system_ms = 0 ∨ ageSpec now s.last_system_ms > 22000),
      "missing system message"),
    (decide (s.location.latitude = 0 ∧ s.location.longitude = 0), "Bad location"),
    (decide (s.system.operator_latitude = 0 ∧ s.system.operator_longitude = 0),
      "Bad operator location") ]

/-- The reason of the first failing check of a list of checks, if one fails. -/
def firstFailure : List (Bool × String) → Option String
  | [] => none
  | (true, reason) :: _ => some reason
  | (false, _) :: rest => firstFailure rest

/-- The verdict the specification prescribes: the first failing check decides the
reason, with code `PRE_ARM_FAIL_GENERIC`; with no failing check it is
`(GOOD_TO_ARM, "")`. -/
def armVerdictSpec (c : Codec) (s : Session) (now : Nat) : Nat × String :=
  match firstFailure (armChecks s now) with
  | some reason => (c.MAV_ODID_PRE_ARM_FAIL_GENERIC, reason)
  | none => (c.MAV_ODID_GOOD_TO_ARM, "")

/-! ## Sample parameters and states -/

/-- One admissible choice of the codec's constants, with decoders that read the
first payload entries. -/
def sampleCodec : Codec where
  MAVLINK_MSG_ID_OPEN_DRONE_ID_LOCATION := 12901
  MAVLINK_MSG_ID_OPEN_DRONE_ID_BASIC_ID := 12900
  MAVLINK_MSG_ID_OPEN_DRONE_ID_AUTHENTICATION := 12902
  MAVLINK_MSG_ID_OPEN_DRONE_ID_SELF_ID := 12903
  MAVLINK_MSG_ID_OPEN_DRONE_ID_SYSTEM := 12904
  MAVLINK_MSG_ID_OPEN_DRONE_ID_OPERATOR_ID := 12905
  mavlink_msg_open_drone_id_location_decode := fun m =>
    { latitude := (m.payload.getD 0 0 : Nat), longitude := (m.payload.getD 1 0 : Nat) }
  mavlink_msg_open_drone_id_basic_id_decode := fun m => { data := m.payload }
  mavlink_msg_open_drone_id_authentication_decode := fun m => { data := m.payload }
  mavlink_msg_open_drone_id_self_id_decode := fun m => { data := m.payload }
  mavlink_msg_open_drone_id_system_decode := fun m =>
    { operator_latitude := (m.payload.getD 0 0 : Nat),
      operator_longitude := (m.payload.getD 1 0 : Nat) }
  mavlink_msg_open_drone_id_operator_id_decode := fun m => { data := m.payload }
  MAV_ODID_GOOD_TO_ARM := 0
  MAV_ODID_PRE_ARM_FAIL_GENERIC := 1
  MAV_TYPE_ODID := 34
  MAV_AUTOPILOT_ARDUPILOTMEGA := 3

/-- One admissible choice of the `PKT_*` flags: six different bits. -/
def sampleFlags : PktFlags where
  PKT_LOCATION := 1
  PKT_BASIC_ID := 2
  PKT_AUTHENTICATION := 4
  PKT_SELF_ID := 8
  PKT_SYSTEM := 16
  PKT_OPERATOR_ID := 32

/-- The session before any call: mask, timestamps and payloads all zero. -/
def freshSession : Session where
  chan := 0
  last_hb_ms := 0
  packets_received_mask := 0
  last_location_ms := 0
  last_basic_id_ms := 0
  last_self_id_ms := 0
  last_operator_id_ms := 0
  last_system_ms := 0
  location := { latitude := 0, longitude := 0 }
  basic_id := { data := [] }
  authentication := { data := [] }
  self_id := { data := [] }
  system := { operator_latitude := 0, operator_longitude := 0 }
  operator_id := { data := [] }

/-- A session that received all five required messages at 500 ms, with a plausible
position and operator position. -/
def sampleSession : Session :=
  { freshSession with
    packets_received_mask := 59
    last_location_ms := 500
    last_basic_id_ms := 500
    last_self_id_ms := 500
    last_operator_id_ms := 500
    last_system_ms := 500
    location := { latitude := 470000000, longitude := 80000000 }
    system := { operator_latitude := 470000000, operator_longitude := 80000000 } }

/-- The sample session with the location received at 22400 ms. -/
def lateLocationSession : Session :=
  { sampleSession with last_location_ms := 22400 }

/-! ## Sequences of heartbeat ticks -/

/-- The states after each call of a sequence of `update_send` calls, each call given
as the pair of clock readings `(now_ms, now_arm)` it reads. -/
def sendStates (c : Codec) (s : Session) : List (Nat × Nat) → List Session
  | [] => []
  | t :: rest =>
    (update_send c s t.1 t.2).1 :: sendStates c (update_send c s t.1 t.2).1 rest

/-- The clock readings `now_ms` of those calls of a sequence of `update_send` calls
that emitted frames, in order. -/
def emissionReadings (c : Codec) (s : Session) : List (Nat × Nat) → List Nat
  | [] => []
  | t :: rest =>
    if (update_send c s t.1 t.2).2 = [] then
      emissionReadings c (update_send c s t.1 t.2).1 rest
    else
      t.1 :: emissionReadings c (update_send c s t.1 t.2).1 rest

/-! ## The receive side -/

/-- A session together with what `update_receive` works on: the state that the frame
parser keeps for the channel (its type `σ` is the codec's business), and the bytes the
serial endpoint delivers to `read()`, oldest first (each below 256). -/
structure Link (σ : Type) where
  session : Session
  parser : σ
  rx : List Nat

/-- The expression `(uint8_t)serial.read()`: the next byte and the remaining queue.
On an empty queue `read()` returns `-1`, which the cast turns into 255. -/
def serial_read : List Nat → Nat × List Nat
  | [] => (255, [])
  | b :: rest => (b, rest)

/-- The `for` loop of `update_receive` with `n` iterations left, at loop counter `i`.
`mavlink_parse_char chan ps byte` is the codec's parser: the new parser state and the
completed frame, if this byte completes one. `clock i` is what `millis()` returns
inside `process_packet` when iteration `i` calls it. -/
def receive_loop {σ : Type} (c : Codec) (p : PktFlags)
    (mavlink_parse_char : Nat → σ → Nat → σ × Option mavlink_message_t)
    (clock : Nat → Nat) : Nat → Nat → Link σ → Link σ
  | 0, _, l => l
  | n + 1, i, l =>
    let r := serial_read l.rx
    let q := mavlink_parse_char l.session.chan l.parser r.1
    let s1 :=
      match q.2 with
      | some msg => process_packet c p l.session (clock i) msg
      | none => l.session
    receive_loop c p mavlink_parse_char clock n (i + 1)
      { session := s1, parser := q.1, rx := r.2 }

/-- `MAVLinkSerial::update_receive`, with `avail` the value `serial.available()`
returns (an `int`): it is stored in the `uint16_t` variable `nbytes`, which bounds
the loop. -/
def update_receive {σ : Type} (c : Codec) (p : PktFlags)
    (mavlink_parse_char : Nat → σ → Nat → σ × Option mavlink_message_t)
    (clock : Nat → Nat) (avail : Nat) (l : Link σ) : Link σ :=
  let nbytes := avail % 65536
  receive_loop c p mavlink_parse_char clock nbytes 0 l

/-- `MAVLinkSerial::update`: `update_send`, then `update_receive`; the new state and
the frames sent. -/
def update {σ : Type} (c : Codec) (p : PktFlags)
    (mavlink_parse_char : Nat → σ → Nat → σ × Option mavlink_message_t)
    (clock : Nat → Nat) (l : Link σ) (now_ms now_arm avail : Nat) : Link σ × List Frame :=
  let r := update_send c l.session now_ms now_arm
  (update_receive c p mavlink_parse_char clock avail { l with session := r.1 }, r.2)

/-- The parser state after a list of bytes has been fed to the parser, in order. -/
def parserAfter {σ : Type} (mavlink_parse_char : Nat → σ → Nat → σ × Option mavlink_message_t)
    (chan : Nat) : σ → List Nat → σ
  | ps, [] => ps
  | ps, b :: bs => parserAfter mavlink_parse_char chan (mavlink_parse_char chan ps b).1 bs

/-- The `process_packet` calls that a list of bytes gives rise to when fed to the
parser in order: one call for each byte on which the parser reports a completed
frame, in the order of the bytes; `i` is the position of the first byte. -/
def completedFrames {σ : Type}
    (mavlink_parse_char : Nat → σ → Nat → σ × Option mavlink_message_t)
    (chan : Nat) (clock : Nat → Nat) : Nat → σ → List Nat → List Op
  | _, _, [] => []
  | i, ps, b :: bs =>
    match (mavlink_parse_char chan ps b).2 with
    | some msg =>
      Op.packet (clock i) msg ::
        completedFrames mavlink_parse_char chan clock (i + 1) (mavlink_parse_char chan ps b).1 bs
    | none =>
      completedFrames mavlink_parse_char chan clock (i + 1) (mavlink_parse_char chan ps b).1 bs

/-- The cold start scenario: `update` is called at the clock readings 0, 10, 20, ...
while the endpoint reports no byte. The value at `k` is the state after the call at
reading `10 * k` and the frames which that call sent. -/
def coldStartTick {σ : Type} (c : Codec) (p : PktFlags)
    (mavlink_parse_char : Nat → σ → Nat → σ × Option mavlink_message_t)
    (l0 : Link σ) : Nat → Link σ × List Frame
  | 0 => update c p mavlink_parse_char (fun _ => 0) l0 0 0 0
  | k + 1 =>
    update c p mavlink_parse_char (fun _ => 10 * (k + 1))
      (coldStartTick c p mavlink_parse_char l0 k).1 (10 * (k + 1)) (10 * (k + 1)) 0

/-! ## The channel registry -/

/-- `comm_send_buffer`. The array `serial_ports` is the list of its
`MAVLINK_COMM_NUM_BUFFERS` entries, `none` for `nullptr` and `some e` for a pointer
to endpoint `e`; it is indexed with `uint8_t(chan)`. The result is the registry after
the call and the `write(buf, len)` calls made, each as the endpoint and the bytes
handed over. -/
def comm_send_buffer (serial_ports : List (Option Nat)) (chan : Nat) (buf : List Nat)
    (len : Nat) : List (Option Nat) × List (Nat × List Nat) :=
  if chan ≥ serial_ports.length ∨ serial_ports.getD (chan % 256) none = none then
    (serial_ports, [])
  else
    match serial_ports.getD (chan % 256) none with
    | some serial => (serial_ports, [(serial, buf.take len)])
    | none => (serial_ports, [])

/-- The constructor `MAVLinkSerial::MAVLinkSerial`, as far as the registry goes: the
store `serial_ports[uint8_t(_chan - MAVLINK_COMM_0)] = &serial`. The array has
`MAVLINK_COMM_NUM_BUFFERS` entries, the length of the list; a store at an index
outside the array is undefined behaviour, rendered as `none`. -/
def MAVLinkSerial (MAVLINK_COMM_0 : Nat) (serial_ports : List (Option Nat))
    (serial chan : Nat) : Option (List (Option Nat)) :=
  let index := (((chan : Int) - (MAVLINK_COMM_0 : Int)) % 256).toNat
  if index < serial_ports.length then
    some (serial_ports.set index (some serial))
  else
    none

/-! ## Sample parser and links -/

/-- A toy frame parser: every third byte completes a frame, whose message id is 12900
plus the first byte of the three and whose payload is the other two. -/
def sampleParser (_chan : Nat) (ps : List Nat) (b : Nat) :
    List Nat × Option mavlink_message_t :=
  match ps with
  | [x, y] => ([], some { msgid := 12900 + x, payload := [y, b] })
  | _ => (ps ++ [b], none)

/-- The fresh session on an idle link. -/
def freshLink : Link (List Nat) where
  session := freshSession
  parser := []
  rx := []

/-- The fresh session with four bytes waiting: a LOCATION frame and one more byte. -/
def busyLink : Link (List Nat) where
  session := freshSession
  parser := []
  rx := [1, 47, 8, 0]

/-- A link on which `available()` reports 65536 bytes, all of them waiting. -/
def fullBufferLink : Link (List Nat) where
  session := freshSession
  parser := []
  rx := List.replicate 65536 0

/-- The five required frames processed at 500 ms, then a heartbeat tick at 1000 ms. -/
def fullSetOps : List Op :=
  [Op.packet 500 { msgid := 12901, payload := [47, 8] },
    Op.packet 500 { msgid := 12900, payload := [1, 2] },
    Op.packet 500 { msgid := 12903, payload := [1, 2] },
    Op.packet 500 { msgid := 12904, payload := [47, 8] },
    Op.packet 500 { msgid := 12905, payload := [1, 2] },
    Op.send 1000 1000]

/-! ## Arithmetic lemmas -/

theorem sub32_eq_ageSpec (a b : Nat) (ha : a < 4294967296) (hb : b < 4294967296) :
    (sub32 a b : Int) = ageSpec a b := by
  unfold sub32 ageSpec
  omega

theorem sub32_gt_iff (a b k : Nat) (ha : a < 4294967296) (hb : b < 4294967296) :
    sub32 a b > k ↔ ageSpec a b > (k : Int) := by
  rw [← sub32_eq_ageSpec a b ha hb]
  omega

theorem sub32_lt_iff (a b k : Nat) (ha : a < 4294967296) (hb : b < 4294967296) :
    sub32 a b < k ↔ ageSpec a b < (k : Int) := by
  rw [← sub32_eq_ageSpec a b ha hb]
  omega

theorem sub32_ge_iff (a b k : Nat) (ha : a < 4294967296) (hb : b < 4294967296) :
    sub32 a b ≥ k ↔ ageSpec a b ≥ (k : Int) := by
  rw [← sub32_eq_ageSpec a b ha hb]
  omega

/-! ## The arm evaluator -/

/-- C1: for every session state with `uint32_t` timestamps and every 32-bit clock
reading, the arm status frame carries the verdict of the first failing check in the
fixed order of the seven checks (code `PRE_ARM_FAIL_GENERIC` with that check's
reason), and it carries `(GOOD_TO_ARM, "")` exactly when none of the seven checks
fails. -/
theorem arm_status_send_first_failing (c : Codec) (s : Session) (now : Nat)
    (hnow : now < 4294967296) (hs : s.InRange) :
    arm_status_send c s now =
        Frame.open_drone_id_arm_status s.chan (armVerdictSpec c s now).1
          (armVerdictSpec c s now).2 ∧
      (arm_status_send c s now =
          Frame.open_drone_id_arm_status s.chan c.MAV_ODID_GOOD_TO_ARM "" ↔
        ∀ chk ∈ armChecks s now, chk.1 = false) := by
  obtain ⟨_, h1, h2, h3, h4, h5⟩ := hs
  have e1 := sub32_gt_iff now s.last_location_ms 3000 hnow h1
  have e2 := sub32_gt_iff now s.last_basic_id_ms 22000 hnow h2
  have e3 := sub32_gt_iff now s.last_self_id_ms 22000 hnow h3
  have e4 := sub32_gt_iff now s.last_operator_id_ms 22000 hnow h4
  have e5 := sub32_gt_iff now s.last_system_ms 22000 hnow h5
  simp only [Nat.cast_ofNat] at e1 e2 e3 e4 e5
  unfold arm_status_send armVerdictSpec armChecks
  simp only [← e1, ← e2, ← e3, ← e4, ← e5, gt_iff_lt, List.forall_mem_cons,
    List.not_mem_nil, false_implies, implies_true, and_true, decide_eq_false_iff_not]
  by_cases c1 : s.last_location_ms = 0 ∨ 3000 < sub32 now s.last_location_ms
  · simp [c1, firstFailure]
  by_cases c2 : s.last_basic_id_ms = 0 ∨ 22000 < sub32 now s.last_basic_id_ms
  · simp only [c1, c2, firstFailure, if_true, if_false, decide_True, decide_False]; simp
  by_cases c3 : s.last_self_id_ms = 0 ∨ 22000 < sub32 now s.last_self_id_ms
  · simp only [c1, c2, c3, firstFailure, if_true, if_false, decide_True, decide_False]; simp
  by_cases c4 : s.last_operator_id_ms = 0 ∨ 22000 < sub32 now s.last_operator_id_ms
  · simp only [c1, c2, c3, c4, firstFailure, if_true, if_false, decide_True, decide_False]
    simp
  by_cases c5 : s.last_system_ms = 0 ∨ 22000 < sub32 now s.last_system_ms
  · simp only [c1, c2, c3, c4, c5, firstFailure, if_true, if_false, decide_True,
      decide_False]
    simp
  by_cases c6 : s.location.latitude = 0 ∧ s.location.longitude = 0
  · simp only [c1, c2, c3, c4, c5, c6, firstFailure, if_true, if_false, decide_True,
      decide_False]
    simp
  by_cases c7 : s.system.operator_latitude = 0 ∧ s.system.operator_longitude = 0
  · simp only [c1, c2, c3, c4, c5, c6, c7, firstFailure, if_true, if_false, decide_True,
      decide_False]
    simp
  · simp only [c1, c2, c3, c4, c5, c6, c7, firstFailure, if_true, if_false, decide_True,
      decide_False]
    simp

/-- The theorem of C1 at the sample session, read at 1000 ms. -/
theorem arm_status_send_first_failing_witness :
    arm_status_send sampleCodec sampleSession 1000 =
        Frame.open_drone_id_arm_status sampleSession.chan
          (armVerdictSpec sampleCodec sampleSession 1000).1
          (armVerdictSpec sampleCodec sampleSession 1000).2 ∧
      (arm_status_send sampleCodec sampleSession 1000 =
          Frame.open_drone_id_arm_status sampleSession.chan
            sampleCodec.MAV_ODID_GOOD_TO_ARM "" ↔
        ∀ chk ∈ armChecks sampleSession 1000, chk.1 = false) :=
  arm_status_send_first_failing sampleCodec sampleSession 1000 (by decide) (by decide)

/-! ## Flags and bits -/

theorem bitSet_iff_testBit (m f : Nat) :
    bitSet m f ↔ ∀ i, f.testBit i = true → m.testBit i = true := by
  unfold bitSet
  constructor
  · intro h i hi
    have hb : (m &&& f).testBit i = f.testBit i := by rw [h]
    rw [Nat.testBit_and, hi] at hb
    simpa using hb
  · intro h
    apply Nat.eq_of_testBit_eq
    intro i
    rw [Nat.testBit_and]
    cases hf : f.testBit i
    · simp
    · simp [h i hf]

theorem bitSet_or (m a b : Nat) : bitSet m (a ||| b) ↔ bitSet m a ∧ bitSet m b := by
  simp only [bitSet_iff_testBit, Nat.testBit_or, Bool.or_eq_true]
  constructor
  · intro h
    exact ⟨fun i hi => h i (Or.inl hi), fun i hi => h i (Or.inr hi)⟩
  · rintro ⟨ha, hb⟩ i (hi | hi)
    · exact ha i hi
    · exact hb i hi

theorem bitSet_mono (m g f : Nat) (h : bitSet m f) : bitSet (m ||| g) f := by
  rw [bitSet_iff_testBit] at h ⊢
  intro i hi
  simp [h i hi]

theorem bitSet_or_self (m f : Nat) : bitSet (m ||| f) f := by
  rw [bitSet_iff_testBit]
  intro i hi
  simp [hi]

theorem IsBit.testBit_disjoint {f g : Nat} (hf : IsBit f) (hg : IsBit g) (hne : f ≠ g)
    (i : Nat) (hi : f.testBit i = true) : g.testBit i = false := by
  obtain ⟨a, _, rfl⟩ := hf
  obtain ⟨b, _, rfl⟩ := hg
  rw [Nat.testBit_two_pow] at hi ⊢
  have ha : a = i := by simpa using hi
  have hab : a ≠ b := fun h => hne (by rw [h])
  simp only [decide_eq_false_iff_not]
  omega

theorem IsBit.bitSet_or_iff {f g : Nat} (hf : IsBit f) (hg : IsBit g) (hne : f ≠ g)
    (m : Nat) : bitSet (m ||| g) f ↔ bitSet m f := by
  simp only [bitSet_iff_testBit, Nat.testBit_or, Bool.or_eq_true]
  constructor
  · intro h i hi
    rcases h i hi with h1 | h1
    · exact h1
    · rw [hf.testBit_disjoint hg hne i hi] at h1
      exact absurd h1 (by simp)
  · intro h i hi
    exact Or.inl (h i hi)

theorem IsBit.not_bitSet_zero {f : Nat} (hf : IsBit f) : ¬ bitSet 0 f := by
  obtain ⟨a, _, rfl⟩ := hf
  unfold bitSet
  rw [Nat.zero_and]
  exact (Nat.pos_iff_ne_zero.mp (Nat.two_pow_pos a)).symm

/-! ## `initialised` -/

theorem initialised_iff (p : PktFlags) (s : Session) :
    initialised p s = true ↔
      bitSet s.packets_received_mask p.PKT_LOCATION ∧
      bitSet s.packets_received_mask p.PKT_BASIC_ID ∧
      bitSet s.packets_received_mask p.PKT_SELF_ID ∧
      bitSet s.packets_received_mask p.PKT_SYSTEM ∧
      bitSet s.packets_received_mask p.PKT_OPERATOR_ID := by
  unfold initialised
  simp only [decide_eq_true_eq]
  change bitSet _ _ ↔ _
  simp only [bitSet_or, and_assoc]

/-- C2: `initialised()` returns true if and only if the mask has the five flags
LOCATION, BASIC_ID, SELF_ID, SYSTEM and OPERATOR_ID set; and, the flags being six
different bits, two sessions whose masks agree on every bit other than the
AUTHENTICATION bit get the same answer, whatever their timestamps and payloads
(no clock reading enters the function). -/
theorem initialised_iff_five_bits (p : PktFlags) :
    (∀ s : Session, initialised p s = true ↔
      bitSet s.packets_received_mask p.PKT_LOCATION ∧
      bitSet s.packets_received_mask p.PKT_BASIC_ID ∧
      bitSet s.packets_received_mask p.PKT_SELF_ID ∧
      bitSet s.packets_received_mask p.PKT_SYSTEM ∧
      bitSet s.packets_received_mask p.PKT_OPERATOR_ID) ∧
    (p.DistinctBits → ∀ s1 s2 : Session,
      (∀ i, p.PKT_AUTHENTICATION.testBit i = false →
        s1.packets_received_mask.testBit i = s2.packets_received_mask.testBit i) →
      initialised p s1 = initialised p s2) := by
  refine ⟨initialised_iff p, ?_⟩
  rintro ⟨hbits, hnd⟩ s1 s2 hagree
  simp only [PktFlags.toList, List.mem_cons, List.mem_singleton, forall_eq_or_imp,
    forall_eq, List.not_mem_nil, false_implies, implies_true, and_true] at hbits
  simp only [PktFlags.toList, List.nodup_cons, List.mem_cons, List.mem_singleton,
    not_or, List.not_mem_nil, not_false_eq_true, List.nodup_nil, and_true] at hnd
  obtain ⟨bL, bB, bA, bSe, bSy, bO⟩ := hbits
  have key : ∀ (m1 m2 : Nat) (f : Nat), IsBit f → f ≠ p.PKT_AUTHENTICATION →
      (∀ i, p.PKT_AUTHENTICATION.testBit i = false → m1.testBit i = m2.testBit i) →
      bitSet m1 f → bitSet m2 f := by
    intro m1 m2 f hf hne hag h
    rw [bitSet_iff_testBit] at h ⊢
    intro i hi
    rw [← hag i (hf.testBit_disjoint bA hne i hi)]
    exact h i hi
  have hsymm : ∀ i, p.PKT_AUTHENTICATION.testBit i = false →
      s2.packets_received_mask.testBit i = s1.packets_received_mask.testBit i :=
    fun i hi => (hagree i hi).symm
  rw [Bool.eq_iff_iff, initialised_iff, initialised_iff]
  constructor
  · rintro ⟨h1, h2, h3, h4, h5⟩
    exact ⟨key _ _ _ bL (by tauto) hagree h1, key _ _ _ bB (by tauto) hagree h2,
      key _ _ _ bSe (by tauto) hagree h3, key _ _ _ bSy (by tauto) hagree h4,
      key _ _ _ bO (by tauto) hagree h5⟩
  · rintro ⟨h1, h2, h3, h4, h5⟩
    exact ⟨key _ _ _ bL (by tauto) hsymm h1, key _ _ _ bB (by tauto) hsymm h2,
      key _ _ _ bSe (by tauto) hsymm h3, key _ _ _ bSy (by tauto) hsymm h4,
      key _ _ _ bO (by tauto) hsymm h5⟩

/-- The theorem of C2 at the sample flags: the masks `59` and `63` differ in the
AUTHENTICATION bit only and get the same answer. -/
theorem initialised_iff_five_bits_witness :
    sampleFlags.DistinctBits ∧
      initialised sampleFlags sampleSession =
        initialised sampleFlags { sampleSession with packets_received_mask := 63 } :=
  ⟨by decide,
    (initialised_iff_five_bits sampleFlags).2 (by decide) sampleSession
      { sampleSession with packets_received_mask := 63 }
      (by
        intro i hi
        show Nat.testBit 59 i = Nat.testBit 63 i
        have h4 : Nat.testBit 4 i = false := hi
        rcases Nat.lt_or_ge i 6 with h | h
        · interval_cases i <;> first | rfl | exact absurd h4 (by decide)
        · have hp : 2 ^ 6 ≤ 2 ^ i := Nat.pow_le_pow_right (by decide) h
          rw [Nat.testBit_lt_two_pow (by omega), Nat.testBit_lt_two_pow (by omega)])⟩

/-! ## The mask along a run -/

theorem PktFlags.DistinctBits.flags_isBit {p : PktFlags} (hp : p.DistinctBits) :
    IsBit p.PKT_LOCATION ∧ IsBit p.PKT_BASIC_ID ∧ IsBit p.PKT_AUTHENTICATION ∧
      IsBit p.PKT_SELF_ID ∧ IsBit p.PKT_SYSTEM ∧ IsBit p.PKT_OPERATOR_ID := by
  have h := hp.1
  simpa only [PktFlags.toList, List.mem_cons, List.mem_singleton, forall_eq_or_imp,
    forall_eq, List.not_mem_nil, false_implies, implies_true, and_true] using h

theorem PktFlags.DistinctBits.flags_ne {p : PktFlags} (hp : p.DistinctBits) :
    (p.PKT_LOCATION ≠ p.PKT_BASIC_ID ∧ p.PKT_LOCATION ≠ p.PKT_AUTHENTICATION ∧
      p.PKT_LOCATION ≠ p.PKT_SELF_ID ∧ p.PKT_LOCATION ≠ p.PKT_SYSTEM ∧
      p.PKT_LOCATION ≠ p.PKT_OPERATOR_ID) ∧
    (p.PKT_BASIC_ID ≠ p.PKT_AUTHENTICATION ∧ p.PKT_BASIC_ID ≠ p.PKT_SELF_ID ∧
      p.PKT_BASIC_ID ≠ p.PKT_SYSTEM ∧ p.PKT_BASIC_ID ≠ p.PKT_OPERATOR_ID) ∧
    (p.PKT_AUTHENTICATION ≠ p.PKT_SELF_ID ∧ p.PKT_AUTHENTICATION ≠ p.PKT_SYSTEM ∧
      p.PKT_AUTHENTICATION ≠ p.PKT_OPERATOR_ID) ∧
    (p.PKT_SELF_ID ≠ p.PKT_SYSTEM ∧ p.PKT_SELF_ID ≠ p.PKT_OPERATOR_ID) ∧
    p.PKT_SYSTEM ≠ p.PKT_OPERATOR_ID := by
  have h := hp.2
  simp only [PktFlags.toList, List.nodup_cons, List.mem_cons, List.mem_singleton,
    not_or, List.not_mem_nil, not_false_eq_true, List.nodup_nil, and_true] at h
  tauto

theorem update_send_mask (c : Codec) (s : Session) (now_ms now_arm : Nat) :
    (update_send c s now_ms now_arm).1.packets_received_mask = s.packets_received_mask := by
  unfold update_send
  split_ifs <;> rfl

theorem process_packet_keeps_flag (c : Codec) (p : PktFlags) (s : Session) (now_ms : Nat)
    (msg : mavlink_message_t) (f : Nat) (h : bitSet s.packets_received_mask f) :
    bitSet (process_packet c p s now_ms msg).packets_received_mask f := by
  unfold process_packet
  split_ifs <;> first | exact h | exact bitSet_mono _ _ _ h

theorem step_keeps_flag (c : Codec) (p : PktFlags) (s : Session) (op : Op) (f : Nat)
    (h : bitSet s.packets_received_mask f) :
    bitSet (step c p s op).packets_received_mask f := by
  cases op with
  | packet now_ms msg => exact process_packet_keeps_flag c p s now_ms msg f h
  | send now_ms now_arm =>
    show bitSet (update_send c s now_ms now_arm).1.packets_received_mask f
    rw [update_send_mask]
    exact h

theorem run_keeps_flag (c : Codec) (p : PktFlags) (ops : List Op) (s : Session) (f : Nat)
    (h : bitSet s.packets_received_mask f) :
    bitSet (run c p s ops).packets_received_mask f := by
  induction ops generalizing s with
  | nil => exact h
  | cons op ops ih => exact ih (step c p s op) (step_keeps_flag c p s op f h)

theorem run_append (c : Codec) (p : PktFlags) (s : Session) (ops1 ops2 : List Op) :
    run c p s (ops1 ++ ops2) = run c p (run c p s ops1) ops2 := by
  unfold run
  rw [List.foldl_append]

theorem process_packet_location_flag (c : Codec) (p : PktFlags) (hp : p.DistinctBits)
    (s : Session) (now_ms : Nat) (msg : mavlink_message_t)
    (h : msg.msgid ≠ c.MAVLINK_MSG_ID_OPEN_DRONE_ID_LOCATION) :
    bitSet (process_packet c p s now_ms msg).packets_received_mask p.PKT_LOCATION ↔
      bitSet s.packets_received_mask p.PKT_LOCATION := by
  obtain ⟨bL, bB, bA, bSe, bSy, bO⟩ := hp.flags_isBit
  obtain ⟨⟨n1, n2, n3, n4, n5⟩, ⟨m1, m2, m3, m4⟩, ⟨k1, k2, k3⟩, ⟨j1, j2⟩, i1⟩ := hp.flags_ne
  unfold process_packet
  split_ifs <;> first
    | contradiction
    | exact Iff.rfl
    | (refine IsBit.bitSet_or_iff bL ?_ ?_ _ <;> assumption)

theorem process_packet_basic_id_flag (c : Codec) (p : PktFlags) (hp : p.DistinctBits)
    (s : Session) (now_ms : Nat) (msg : mavlink_message_t)
    (h : msg.msgid ≠ c.MAVLINK_MSG_ID_OPEN_DRONE_ID_BASIC_ID) :
    bitSet (process_packet c p s now_ms msg).packets_received_mask p.PKT_BASIC_ID ↔
      bitSet s.packets_received_mask p.PKT_BASIC_ID := by
  obtain ⟨bL, bB, bA, bSe, bSy, bO⟩ := hp.flags_isBit
  obtain ⟨⟨n1, n2, n3, n4, n5⟩, ⟨m1, m2, m3, m4⟩, ⟨k1, k2, k3⟩, ⟨j1, j2⟩, i1⟩ := hp.flags_ne
  unfold process_packet
  split_ifs <;> first
    | contradiction
    | exact Iff.rfl
    | (refine IsBit.bitSet_or_iff bB ?_ ?_ _ <;> first
        | assumption
        | exact Ne.symm (by assumption))

theorem process_packet_self_id_flag (c : Codec) (p : PktFlags) (hp : p.DistinctBits)
    (s : Session) (now_ms : Nat) (msg : mavlink_message_t)
    (h : msg.msgid ≠ c.MAVLINK_MSG_ID_OPEN_DRONE_ID_SELF_ID) :
    bitSet (process_packet c p s now_ms msg).packets_received_mask p.PKT_SELF_ID ↔
      bitSet s.packets_received_mask p.PKT_SELF_ID := by
  obtain ⟨bL, bB, bA, bSe, bSy, bO⟩ := hp.flags_isBit
  obtain ⟨⟨n1, n2, n3, n4, n5⟩, ⟨m1, m2, m3, m4⟩, ⟨k1, k2, k3⟩, ⟨j1, j2⟩, i1⟩ := hp.flags_ne
  unfold process_packet
  split_ifs <;> first
    | contradiction
    | exact Iff.rfl
    | (refine IsBit.bitSet_or_iff bSe ?_ ?_ _ <;> first
        | assumption
        | exact Ne.symm (by assumption))

theorem process_packet_system_flag (c : Codec) (p : PktFlags) (hp : p.DistinctBits)
    (s : Session) (now_ms : Nat) (msg : mavlink_message_t)
    (h : msg.msgid ≠ c.MAVLINK_MSG_ID_OPEN_DRONE_ID_SYSTEM) :
    bitSet (process_packet c p s now_ms msg).packets_received_mask p.PKT_SYSTEM ↔
      bitSet s.packets_received_mask p.PKT_SYSTEM := by
  obtain ⟨bL, bB, bA, bSe, bSy, bO⟩ := hp.flags_isBit
  obtain ⟨⟨n1, n2, n3, n4, n5⟩, ⟨m1, m2, m3, m4⟩, ⟨k1, k2, k3⟩, ⟨j1, j2⟩, i1⟩ := hp.flags_ne
  unfold process_packet
  split_ifs <;> first
    | contradiction
    | exact Iff.rfl
    | (refine IsBit.bitSet_or_iff bSy ?_ ?_ _ <;> first
        | assumption
        | exact Ne.symm (by assumption))

theorem process_packet_operator_id_flag (c : Codec) (p : PktFlags) (hp : p.DistinctBits)
    (s : Session) (now_ms : Nat) (msg : mavlink_message_t)
    (h : msg.msgid ≠ c.MAVLINK_MSG_ID_OPEN_DRONE_ID_OPERATOR_ID) :
    bitSet (process_packet c p s now_ms msg).packets_received_mask p.PKT_OPERATOR_ID ↔
      bitSet s.packets_received_mask p.PKT_OPERATOR_ID := by
  obtain ⟨bL, bB, bA, bSe, bSy, bO⟩ := hp.flags_isBit
  obtain ⟨⟨n1, n2, n3, n4, n5⟩, ⟨m1, m2, m3, m4⟩, ⟨k1, k2, k3⟩, ⟨j1, j2⟩, i1⟩ := hp.flags_ne
  unfold process_packet
  split_ifs <;> first
    | contradiction
    | exact Iff.rfl
    | (refine IsBit.bitSet_or_iff bO ?_ ?_ _ <;> first
        | assumption
        | exact Ne.symm (by assumption))

/-- A flag that only frames of message id `id` can set stays clear along a run that
processes no frame of that id. -/
theorem run_flag_stays_clear (c : Codec) (p : PktFlags) (f id : Nat)
    (hstep : ∀ (s : Session) (now_ms : Nat) (msg : mavlink_message_t), msg.msgid ≠ id →
      (bitSet (process_packet c p s now_ms msg).packets_received_mask f ↔
        bitSet s.packets_received_mask f))
    (ops : List Op) (s : Session) (hs : ¬ bitSet s.packets_received_mask f)
    (hid : id ∉ processedIds ops) :
    ¬ bitSet (run c p s ops).packets_received_mask f := by
  induction ops generalizing s with
  | nil => exact hs
  | cons op ops ih =>
    cases op with
    | packet now_ms msg =>
      simp only [processedIds, List.mem_cons, not_or] at hid
      refine ih (step c p s (Op.packet now_ms msg)) ?_ hid.2
      show ¬ bitSet (process_packet c p s now_ms msg).packets_received_mask f
      rw [hstep s now_ms msg (fun h => hid.1 h.symm)]
      exact hs
    | send now_ms now_arm =>
      simp only [processedIds] at hid
      refine ih (step c p s (Op.send now_ms now_arm)) ?_ hid
      show ¬ bitSet (update_send c s now_ms now_arm).1.packets_received_mask f
      rw [update_send_mask]
      exact hs

/-- C3: starting from a session with an empty mask, with the six flags different
bits, for every sequence of `process_packet` and `update_send` calls at arbitrary
clock readings: `initialised()` is false as long as  one of the five required
message ids has not been processed; once it is true it is true after every further
sequence of calls; and `process_packet` never clears a flag of the mask. -/
theorem initialised_false_until_all_then_latched (c : Codec) (p : PktFlags)
    (hp : p.DistinctBits) (s0 : Session) (h0 : s0.packets_received_mask = 0) :
    (∀ ops : List Op, (∃ id ∈ c.requiredIds, id ∉ processedIds ops) →
      initialised p (run c p s0 ops) = false) ∧
    (∀ ops1 ops2 : List Op, initialised p (run c p s0 ops1) = true →
      initialised p (run c p s0 (ops1 ++ ops2)) = true) ∧
    (∀ (s : Session) (now_ms : Nat) (msg : mavlink_message_t) (i : Nat),
      s.packets_received_mask.testBit i = true →
      (process_packet c p s now_ms msg).packets_received_mask.testBit i = true) := by
  obtain ⟨bL, bB, bA, bSe, bSy, bO⟩ := hp.flags_isBit
  have clear0 : ∀ f, IsBit f → ¬ bitSet s0.packets_received_mask f := by
    intro f hf
    rw [h0]
    exact hf.not_bitSet_zero
  refine ⟨?_, ?_, ?_⟩
  · rintro ops ⟨id, hid, hnot⟩
    rw [← Bool.not_eq_true, initialised_iff]
    simp only [Codec.requiredIds, List.mem_cons, List.mem_singleton, List.not_mem_nil,
      or_false] at hid
    rcases hid with rfl | rfl | rfl | rfl | rfl
    · have := run_flag_stays_clear c p _ _ (process_packet_location_flag c p hp) ops s0
        (clear0 _ bL) hnot
      tauto
    · have := run_flag_stays_clear c p _ _ (process_packet_basic_id_flag c p hp) ops s0
        (clear0 _ bB) hnot
      tauto
    · have := run_flag_stays_clear c p _ _ (process_packet_self_id_flag c p hp) ops s0
        (clear0 _ bSe) hnot
      tauto
    · have := run_flag_stays_clear c p _ _ (process_packet_system_flag c p hp) ops s0
        (clear0 _ bSy) hnot
      tauto
    · have := run_flag_stays_clear c p _ _ (process_packet_operator_id_flag c p hp) ops s0
        (clear0 _ bO) hnot
      tauto
  · intro ops1 ops2 h
    rw [run_append]
    rw [initialised_iff] at h ⊢
    obtain ⟨h1, h2, h3, h4, h5⟩ := h
    exact ⟨run_keeps_flag c p ops2 _ _ h1, run_keeps_flag c p ops2 _ _ h2,
      run_keeps_flag c p ops2 _ _ h3, run_keeps_flag c p ops2 _ _ h4,
      run_keeps_flag c p ops2 _ _ h5⟩
  · intro s now_ms msg i hi
    unfold process_packet
    split_ifs <;> simp [hi]

/-- The theorem of C3 at the sample parameters: after a LOCATION frame and a
heartbeat tick only, the fresh session is not initialised. -/
theorem initialised_false_until_all_then_latched_witness :
    sampleFlags.DistinctBits ∧ freshSession.packets_received_mask = 0 ∧
      initialised sampleFlags
        (run sampleCodec sampleFlags freshSession
          [Op.packet 500 { msgid := 12901, payload := [47, 8] }, Op.send 1000 1000]) =
        false :=
  ⟨by decide, rfl,
    (initialised_false_until_all_then_latched sampleCodec sampleFlags (by decide)
      freshSession rfl).1 _ ⟨12900, by decide, by decide⟩⟩

/-! ## The validity queries -/

/-- C4: for every session state with `uint32_t` timestamps and every 32-bit clock
reading, `system_valid()` returns true if and only if each of `last_system_ms`,
`last_self_id_ms`, `last_basic_id_ms` and `last_operator_id_ms` is nonzero and its
age modulo `2^32` is strictly less than 15000. -/
theorem system_valid_iff (s : Session) (now : Nat) (hnow : now < 4294967296)
    (hs : s.InRange) :
    system_valid s now = true ↔
      (s.last_system_ms ≠ 0 ∧ ageSpec now s.last_system_ms < 15000) ∧
      (s.last_self_id_ms ≠ 0 ∧ ageSpec now s.last_self_id_ms < 15000) ∧
      (s.last_basic_id_ms ≠ 0 ∧ ageSpec now s.last_basic_id_ms < 15000) ∧
      (s.last_operator_id_ms ≠ 0 ∧ ageSpec now s.last_operator_id_ms < 15000) := by
  obtain ⟨_, _, h2, h3, h4, h5⟩ := hs
  have e2 := sub32_lt_iff now s.last_basic_id_ms 15000 hnow h2
  have e3 := sub32_lt_iff now s.last_self_id_ms 15000 hnow h3
  have e4 := sub32_lt_iff now s.last_operator_id_ms 15000 hnow h4
  have e5 := sub32_lt_iff now s.last_system_ms 15000 hnow h5
  simp only [Nat.cast_ofNat] at e2 e3 e4 e5
  unfold system_valid
  rw [← e2, ← e3, ← e4, ← e5]
  split_ifs with h0
  · simp only [Bool.false_eq_true, false_iff]
    tauto
  · simp only [Bool.and_eq_true, decide_eq_true_eq]
    tauto

/-- The theorem of C4 at the sample session, read at 1000 ms. -/
theorem system_valid_iff_witness :
    system_valid sampleSession 1000 = true ↔
      (sampleSession.last_system_ms ≠ 0 ∧ ageSpec 1000 sampleSession.last_system_ms < 15000) ∧
      (sampleSession.last_self_id_ms ≠ 0 ∧
        ageSpec 1000 sampleSession.last_self_id_ms < 15000) ∧
      (sampleSession.last_basic_id_ms ≠ 0 ∧
        ageSpec 1000 sampleSession.last_basic_id_ms < 15000) ∧
      (sampleSession.last_operator_id_ms ≠ 0 ∧
        ageSpec 1000 sampleSession.last_operator_id_ms < 15000) :=
  system_valid_iff sampleSession 1000 (by decide) (by decide)

/-- C5: for every `last_location_ms` and every 32-bit clock reading,
`location_valid()` returns true if and only if `last_location_ms` is nonzero and the
age modulo `2^32` is strictly less than 2000. -/
theorem location_valid_iff (s : Session) (now : Nat) (hnow : now < 4294967296)
    (hs : s.last_location_ms < 4294967296) :
    location_valid s now = true ↔
      s.last_location_ms ≠ 0 ∧ ageSpec now s.last_location_ms < 2000 := by
  have e := sub32_lt_iff now s.last_location_ms 2000 hnow hs
  simp only [Nat.cast_ofNat] at e
  unfold location_valid
  rw [← e]
  simp only [Bool.and_eq_true, decide_eq_true_eq]

/-- The theorem of C5 at the sample session, read at 1000 ms. -/
theorem location_valid_iff_witness :
    location_valid sampleSession 1000 = true ↔
      sampleSession.last_location_ms ≠ 0 ∧
        ageSpec 1000 sampleSession.last_location_ms < 2000 :=
  location_valid_iff sampleSession 1000 (by decide) (by decide)

/-- C6, as stated, fails: the sample session has a nonzero `last_location_ms` (500);
read at 3499 ms the age is 2999 ms and `location_valid()` returns false. -/
theorem location_valid_false_at_age_2999 :
    sampleSession.last_location_ms ≠ 0 ∧
      sub32 3499 sampleSession.last_location_ms = 2999 ∧
      location_valid sampleSession 3499 = false := by
  decide

/-- C6, amended: for every nonzero `last_location_ms`, `location_valid()` returns
false when the age is exactly 3000 ms, and also at 2999 ms; the boundary of the
strict comparison is 2000 ms: false at an age of exactly 2000 ms, true at 1999 ms. -/
theorem location_valid_boundary (s : Session) (now : Nat) (h0 : s.last_location_ms ≠ 0) :
    (sub32 now s.last_location_ms = 3000 → location_valid s now = false) ∧
    (sub32 now s.last_location_ms = 2999 → location_valid s now = false) ∧
    (sub32 now s.last_location_ms = 2000 → location_valid s now = false) ∧
    (sub32 now s.last_location_ms = 1999 → location_valid s now = true) := by
  unfold location_valid
  refine ⟨?_, ?_, ?_, ?_⟩ <;> intro h <;> simp [h, h0]

/-- The theorem of C6 (amended) at the sample session: age 2000 ms at 2500 ms. -/
theorem location_valid_boundary_witness :
    sampleSession.last_location_ms ≠ 0 ∧ sub32 2500 sampleSession.last_location_ms = 2000 ∧
      location_valid sampleSession 2500 = false :=
  ⟨by decide, by decide,
    (location_valid_boundary sampleSession 2500 (by decide)).2.2.1 (by decide)⟩

/-! ## Boundaries of the arm evaluator -/

/-- C7, as stated, fails: in the session whose location is 100 ms old and whose
basic id (like its other messages) is exactly 22000 ms old, the location check
passes, `last_basic_id_ms` is nonzero, and the evaluator does not fail: its verdict
is `(GOOD_TO_ARM, "")`. -/
theorem arm_status_good_at_age_22000 :
    checkPasses lateLocationSession.last_location_ms 22500 3000 ∧
      lateLocationSession.last_basic_id_ms ≠ 0 ∧
      sub32 22500 lateLocationSession.last_basic_id_ms = 22000 ∧
      arm_status_send sampleCodec lateLocationSession 22500 =
        Frame.open_drone_id_arm_status 0 sampleCodec.MAV_ODID_GOOD_TO_ARM "" := by
  decide

theorem checkPasses_iff (last now max_age : Nat) :
    checkPasses last now max_age ↔ ¬ (last = 0 ∨ sub32 now last > max_age) := by
  unfold checkPasses
  rw [not_or, not_lt]

/-- C7, amended: for each non-location type X among basic_id, self_id, operator_id
and system, in a state where every earlier check of the arm evaluator passes and
`last_X_ms` is nonzero: when the age is above 22000 ms (22001 ms is the first such
age) the evaluator fails with reason "missing X message", and when the age is at most
22000 ms (exactly 22000 ms, or 21999 ms) the check passes: the reason is not
"missing X message". -/
theorem arm_status_other_boundary (c : Codec) (s : Session) (now : Nat)
    (hloc : checkPasses s.last_location_ms now 3000) :
    (s.last_basic_id_ms ≠ 0 →
      (22000 < sub32 now s.last_basic_id_ms →
        arm_status_send c s now = Frame.open_drone_id_arm_status s.chan
          c.MAV_ODID_PRE_ARM_FAIL_GENERIC "missing basic_id message") ∧
      (sub32 now s.last_basic_id_ms ≤ 22000 → ∀ st,
        arm_status_send c s now ≠
          Frame.open_drone_id_arm_status s.chan st "missing basic_id message")) ∧
    (checkPasses s.last_basic_id_ms now 22000 → s.last_self_id_ms ≠ 0 →
      (22000 < sub32 now s.last_self_id_ms →
        arm_status_send c s now = Frame.open_drone_id_arm_status s.chan
          c.MAV_ODID_PRE_ARM_FAIL_GENERIC "missing self_id message") ∧
      (sub32 now s.last_self_id_ms ≤ 22000 → ∀ st,
        arm_status_send c s now ≠
          Frame.open_drone_id_arm_status s.chan st "missing self_id message")) ∧
    (checkPasses s.last_basic_id_ms now 22000 → checkPasses s.last_self_id_ms now 22000 →
      s.last_operator_id_ms ≠ 0 →
      (22000 < sub32 now s.last_operator_id_ms →
        arm_status_send c s now = Frame.open_drone_id_arm_status s.chan
          c.MAV_ODID_PRE_ARM_FAIL_GENERIC "missing operator_id message") ∧
      (sub32 now s.last_operator_id_ms ≤ 22000 → ∀ st,
        arm_status_send c s now ≠
          Frame.open_drone_id_arm_status s.chan st "missing operator_id message")) ∧
    (checkPasses s.last_basic_id_ms now 22000 → checkPasses s.last_self_id_ms now 22000 →
      checkPasses s.last_operator_id_ms now 22000 → s.last_system_ms ≠ 0 →
      (22000 < sub32 now s.last_system_ms →
        arm_status_send c s now = Frame.open_drone_id_arm_status s.chan
          c.MAV_ODID_PRE_ARM_FAIL_GENERIC "missing system message") ∧
      (sub32 now s.last_system_ms ≤ 22000 → ∀ st,
        arm_status_send c s now ≠
          Frame.open_drone_id_arm_status s.chan st "missing system message")) := by
  rw [checkPasses_iff] at hloc
  refine ⟨?_, ?_, ?_, ?_⟩
  · intro h0
    constructor
    · intro hgt
      simp only [arm_status_send, if_neg hloc, if_pos (Or.inr hgt : _ ∨ _)]
    · intro hle st
      have hb : ¬ (s.last_basic_id_ms = 0 ∨ sub32 now s.last_basic_id_ms > 22000) := by
        rw [not_or, not_lt]; exact ⟨h0, hle⟩
      simp only [arm_status_send, if_neg hloc, if_neg hb]
      split_ifs <;> simp
  · intro hb h0
    rw [checkPasses_iff] at hb
    constructor
    · intro hgt
      simp only [arm_status_send, if_neg hloc, if_neg hb, if_pos (Or.inr hgt : _ ∨ _)]
    · intro hle st
      have hx : ¬ (s.last_self_id_ms = 0 ∨ sub32 now s.last_self_id_ms > 22000) := by
        rw [not_or, not_lt]; exact ⟨h0, hle⟩
      simp only [arm_status_send, if_neg hloc, if_neg hb, if_neg hx]
      split_ifs <;> simp
  · intro hb hse h0
    rw [checkPasses_iff] at hb hse
    constructor
    · intro hgt
      simp only [arm_status_send, if_neg hloc, if_neg hb, if_neg hse,
        if_pos (Or.inr hgt : _ ∨ _)]
    · intro hle st
      have hx : ¬ (s.last_operator_id_ms = 0 ∨ sub32 now s.last_operator_id_ms > 22000) := by
        rw [not_or, not_lt]; exact ⟨h0, hle⟩
      simp only [arm_status_send, if_neg hloc, if_neg hb, if_neg hse, if_neg hx]
      split_ifs <;> simp
  · intro hb hse ho h0
    rw [checkPasses_iff] at hb hse ho
    constructor
    · intro hgt
      simp only [arm_status_send, if_neg hloc, if_neg hb, if_neg hse, if_neg ho,
        if_pos (Or.inr hgt : _ ∨ _)]
    · intro hle st
      have hx : ¬ (s.last_system_ms = 0 ∨ sub32 now s.last_system_ms > 22000) := by
        rw [not_or, not_lt]; exact ⟨h0, hle⟩
      simp only [arm_status_send, if_neg hloc, if_neg hb, if_neg hse, if_neg ho, if_neg hx]
      split_ifs <;> simp

/-- The theorem of C7 (amended) at the session whose location is 101 ms old and whose
basic id is 22001 ms old. -/
theorem arm_status_other_boundary_witness :
    checkPasses lateLocationSession.last_location_ms 22501 3000 ∧
      lateLocationSession.last_basic_id_ms ≠ 0 ∧
      22000 < sub32 22501 lateLocationSession.last_basic_id_ms ∧
      arm_status_send sampleCodec lateLocationSession 22501 =
        Frame.open_drone_id_arm_status lateLocationSession.chan
          sampleCodec.MAV_ODID_PRE_ARM_FAIL_GENERIC "missing basic_id message" :=
  ⟨by decide, by decide, by decide,
    ((arm_status_other_boundary sampleCodec lateLocationSession 22501 (by decide)).1
      (by decide)).1 (by decide)⟩

/-! ## The effect of `process_packet` -/

theorem maskGains_or (m f : Nat) : maskGains m (m ||| f) f := by
  refine ⟨bitSet_or_self m f, ?_⟩
  intro i hi
  rw [Nat.testBit_or, hi, Bool.or_false]

theorem Codec.CaseLabelsDistinct.labels_ne {c : Codec} (hc : c.CaseLabelsDistinct) :
    (c.MAVLINK_MSG_ID_OPEN_DRONE_ID_LOCATION ≠ c.MAVLINK_MSG_ID_OPEN_DRONE_ID_BASIC_ID ∧
      c.MAVLINK_MSG_ID_OPEN_DRONE_ID_LOCATION ≠
        c.MAVLINK_MSG_ID_OPEN_DRONE_ID_AUTHENTICATION ∧
      c.MAVLINK_MSG_ID_OPEN_DRONE_ID_LOCATION ≠ c.MAVLINK_MSG_ID_OPEN_DRONE_ID_SELF_ID ∧
      c.MAVLINK_MSG_ID_OPEN_DRONE_ID_LOCATION ≠ c.MAVLINK_MSG_ID_OPEN_DRONE_ID_SYSTEM ∧
      c.MAVLINK_MSG_ID_OPEN_DRONE_ID_LOCATION ≠
        c.MAVLINK_MSG_ID_OPEN_DRONE_ID_OPERATOR_ID) ∧
    (c.MAVLINK_MSG_ID_OPEN_DRONE_ID_BASIC_ID ≠
        c.MAVLINK_MSG_ID_OPEN_DRONE_ID_AUTHENTICATION ∧
      c.MAVLINK_MSG_ID_OPEN_DRONE_ID_BASIC_ID ≠ c.MAVLINK_MSG_ID_OPEN_DRONE_ID_SELF_ID ∧
      c.MAVLINK_MSG_ID_OPEN_DRONE_ID_BASIC_ID ≠ c.MAVLINK_MSG_ID_OPEN_DRONE_ID_SYSTEM ∧
      c.MAVLINK_MSG_ID_OPEN_DRONE_ID_BASIC_ID ≠
        c.MAVLINK_MSG_ID_OPEN_DRONE_ID_OPERATOR_ID) ∧
    (c.MAVLINK_MSG_ID_OPEN_DRONE_ID_AUTHENTICATION ≠
        c.MAVLINK_MSG_ID_OPEN_DRONE_ID_SELF_ID ∧
      c.MAVLINK_MSG_ID_OPEN_DRONE_ID_AUTHENTICATION ≠
        c.MAVLINK_MSG_ID_OPEN_DRONE_ID_SYSTEM ∧
      c.MAVLINK_MSG_ID_OPEN_DRONE_ID_AUTHENTICATION ≠
        c.MAVLINK_MSG_ID_OPEN_DRONE_ID_OPERATOR_ID) ∧
    (c.MAVLINK_MSG_ID_OPEN_DRONE_ID_SELF_ID ≠ c.MAVLINK_MSG_ID_OPEN_DRONE_ID_SYSTEM ∧
      c.MAVLINK_MSG_ID_OPEN_DRONE_ID_SELF_ID ≠
        c.MAVLINK_MSG_ID_OPEN_DRONE_ID_OPERATOR_ID) ∧
    c.MAVLINK_MSG_ID_OPEN_DRONE_ID_SYSTEM ≠ c.MAVLINK_MSG_ID_OPEN_DRONE_ID_OPERATOR_ID := by
  have h : c.caseLabels.Nodup := hc
  simp only [Codec.caseLabels, List.nodup_cons, List.mem_cons, List.mem_singleton,
    not_or, List.not_mem_nil, not_false_eq_true, List.nodup_nil, and_true] at h
  tauto

/-- C8: with the case labels of the `switch` pairwise different, for every session
state, clock reading and completed frame, `process_packet` produces exactly this
state. For a frame of one of the five timestamped types: the slot of the type holds
the decoded frame, the timestamp of the type is the clock reading, the flag of the
type is set with every bit outside it as before, and all other members are unchanged.
For an AUTHENTICATION frame: the same for slot and flag, with no timestamp changed.
For every other message id: the state is unchanged. -/
theorem process_packet_effect (c : Codec) (p : PktFlags) (hc : c.CaseLabelsDistinct)
    (s : Session) (now : Nat) (msg : mavlink_message_t) :
    (msg.msgid = c.MAVLINK_MSG_ID_OPEN_DRONE_ID_LOCATION →
      (process_packet c p s now msg).location =
        c.mavlink_msg_open_drone_id_location_decode msg ∧
      (process_packet c p s now msg).last_location_ms = now ∧
      maskGains s.packets_received_mask
        (process_packet c p s now msg).packets_received_mask p.PKT_LOCATION ∧
      { process_packet c p s now msg with
        location := s.location
        packets_received_mask := s.packets_received_mask
        last_location_ms := s.last_location_ms } = s) ∧
    (msg.msgid = c.MAVLINK_MSG_ID_OPEN_DRONE_ID_BASIC_ID →
      (process_packet c p s now msg).basic_id =
        c.mavlink_msg_open_drone_id_basic_id_decode msg ∧
      (process_packet c p s now msg).last_basic_id_ms = now ∧
      maskGains s.packets_received_mask
        (process_packet c p s now msg).packets_received_mask p.PKT_BASIC_ID ∧
      { process_packet c p s now msg with
        basic_id := s.basic_id
        packets_received_mask := s.packets_received_mask
        last_basic_id_ms := s.last_basic_id_ms } = s) ∧
    (msg.msgid = c.MAVLINK_MSG_ID_OPEN_DRONE_ID_SELF_ID →
      (process_packet c p s now msg).self_id =
        c.mavlink_msg_open_drone_id_self_id_decode msg ∧
      (process_packet c p s now msg).last_self_id_ms = now ∧
      maskGains s.packets_received_mask
        (process_packet c p s now msg).packets_received_mask p.PKT_SELF_ID ∧
      { process_packet c p s now msg with
        self_id := s.self_id
        packets_received_mask := s.packets_received_mask
        last_self_id_ms := s.last_self_id_ms } = s) ∧
    (msg.msgid = c.MAVLINK_MSG_ID_OPEN_DRONE_ID_SYSTEM →
      (process_packet c p s now msg).system =
        c.mavlink_msg_open_drone_id_system_decode msg ∧
      (process_packet c p s now msg).last_system_ms = now ∧
      maskGains s.packets_received_mask
        (process_packet c p s now msg).packets_received_mask p.PKT_SYSTEM ∧
      { process_packet c p s now msg with
        system := s.system
        packets_received_mask := s.packets_received_mask
        last_system_ms := s.last_system_ms } = s) ∧
    (msg.msgid = c.MAVLINK_MSG_ID_OPEN_DRONE_ID_OPERATOR_ID →
      (process_packet c p s now msg).operator_id =
        c.mavlink_msg_open_drone_id_operator_id_decode msg ∧
      (process_packet c p s now msg).last_operator_id_ms = now ∧
      maskGains s.packets_received_mask
        (process_packet c p s now msg).packets_received_mask p.PKT_OPERATOR_ID ∧
      { process_packet c p s now msg with
        operator_id := s.operator_id
        packets_received_mask := s.packets_received_mask
        last_operator_id_ms := s.last_operator_id_ms } = s) ∧
    (msg.msgid = c.MAVLINK_MSG_ID_OPEN_DRONE_ID_AUTHENTICATION →
      (process_packet c p s now msg).authentication =
        c.mavlink_msg_open_drone_id_authentication_decode msg ∧
      maskGains s.packets_received_mask
        (process_packet c p s now msg).packets_received_mask p.PKT_AUTHENTICATION ∧
      { process_packet c p s now msg with
        authentication := s.authentication
        packets_received_mask := s.packets_received_mask } = s) ∧
    (msg.msgid ∉ c.caseLabels → process_packet c p s now msg = s) := by
  obtain ⟨⟨n1, n2, n3, n4, n5⟩, ⟨m1, m2, m3, m4⟩, ⟨k1, k2, k3⟩, ⟨j1, j2⟩, i1⟩ := hc.labels_ne
  refine ⟨?_, ?_, ?_, ?_, ?_, ?_, ?_⟩
  · intro h
    have e : process_packet c p s now msg =
        { s with
          location := c.mavlink_msg_open_drone_id_location_decode msg
          packets_received_mask := s.packets_received_mask ||| p.PKT_LOCATION
          last_location_ms := now } := by
      simp only [process_packet, h, if_true]
    rw [e]
    exact ⟨rfl, rfl, maskGains_or _ _, rfl⟩
  · intro h
    have e : process_packet c p s now msg =
        { s with
          basic_id := c.mavlink_msg_open_drone_id_basic_id_decode msg
          packets_received_mask := s.packets_received_mask ||| p.PKT_BASIC_ID
          last_basic_id_ms := now } := by
      simp only [process_packet, h, if_true, if_neg n1.symm]
    rw [e]
    exact ⟨rfl, rfl, maskGains_or _ _, rfl⟩
  · intro h
    have e : process_packet c p s now msg =
        { s with
          self_id := c.mavlink_msg_open_drone_id_self_id_decode msg
          packets_received_mask := s.packets_received_mask ||| p.PKT_SELF_ID
          last_self_id_ms := now } := by
      simp only [process_packet, h, if_true, if_neg n3.symm, if_neg m2.symm, if_neg k1.symm]
    rw [e]
    exact ⟨rfl, rfl, maskGains_or _ _, rfl⟩
  · intro h
    have e : process_packet c p s now msg =
        { s with
          system := c.mavlink_msg_open_drone_id_system_decode msg
          packets_received_mask := s.packets_received_mask ||| p.PKT_SYSTEM
          last_system_ms := now } := by
      simp only [process_packet, h, if_true, if_neg n4.symm, if_neg m3.symm, if_neg k2.symm,
        if_neg j1.symm]
    rw [e]
    exact ⟨rfl, rfl, maskGains_or _ _, rfl⟩
  · intro h
    have e : process_packet c p s now msg =
        { s with
          operator_id := c.mavlink_msg_open_drone_id_operator_id_decode msg
          packets_received_mask := s.packets_received_mask ||| p.PKT_OPERATOR_ID
          last_operator_id_ms := now } := by
      simp only [process_packet, h, if_true, if_neg n5.symm, if_neg m4.symm, if_neg k3.symm,
        if_neg j2.symm, if_neg i1.symm]
    rw [e]
    exact ⟨rfl, rfl, maskGains_or _ _, rfl⟩
  · intro h
    have e : process_packet c p s now msg =
        { s with
          authentication := c.mavlink_msg_open_drone_id_authentication_decode msg
          packets_received_mask := s.packets_received_mask ||| p.PKT_AUTHENTICATION } := by
      simp only [process_packet, h, if_true, if_neg n2.symm, if_neg m1.symm]
    rw [e]
    exact ⟨rfl, maskGains_or _ _, rfl⟩
  · intro h
    simp only [Codec.caseLabels, List.mem_cons, List.mem_singleton, List.not_mem_nil,
      or_false, not_or] at h
    obtain ⟨h1, h2, h3, h4, h5, h6⟩ := h
    simp only [process_packet, if_neg h1, if_neg h2, if_neg h3, if_neg h4, if_neg h5,
      if_neg h6]

/-- The theorem of C8 at the sample parameters: a LOCATION frame processed at 500 ms
by the fresh session. -/
theorem process_packet_effect_witness :
    sampleCodec.CaseLabelsDistinct ∧
      (process_packet sampleCodec sampleFlags freshSession 500
          { msgid := 12901, payload := [47, 8] }).location =
        { latitude := 47, longitude := 8 } ∧
      (process_packet sampleCodec sampleFlags freshSession 500
          { msgid := 12901, payload := [47, 8] }).last_location_ms = 500 :=
  ⟨by decide,
    ((process_packet_effect sampleCodec sampleFlags (by decide) freshSession 500
      { msgid := 12901, payload := [47, 8] }).1 rfl).1,
    ((process_packet_effect sampleCodec sampleFlags (by decide) freshSession 500
      { msgid := 12901, payload := [47, 8] }).1 rfl).2.1⟩

/-! ## Timestamps and flags along a run -/

theorem process_packet_timestamps_imply_flags (c : Codec) (p : PktFlags) (s : Session)
    (now_ms : Nat) (msg : mavlink_message_t) (h : s.TimestampsImplyFlags p) :
    (process_packet c p s now_ms msg).TimestampsImplyFlags p := by
  obtain ⟨h1, h2, h3, h4, h5⟩ := h
  unfold process_packet
  split_ifs <;> refine ⟨?_, ?_, ?_, ?_, ?_⟩ <;> intro hne <;> first
    | exact bitSet_or_self _ _
    | exact bitSet_mono _ _ _ (h1 hne)
    | exact bitSet_mono _ _ _ (h2 hne)
    | exact bitSet_mono _ _ _ (h3 hne)
    | exact bitSet_mono _ _ _ (h4 hne)
    | exact bitSet_mono _ _ _ (h5 hne)
    | exact h1 hne
    | exact h2 hne
    | exact h3 hne
    | exact h4 hne
    | exact h5 hne

theorem update_send_timestamps_imply_flags (c : Codec) (p : PktFlags) (s : Session)
    (now_ms now_arm : Nat) (h : s.TimestampsImplyFlags p) :
    (update_send c s now_ms now_arm).1.TimestampsImplyFlags p := by
  unfold update_send
  split_ifs
  · exact h
  · exact h

theorem run_timestamps_imply_flags (c : Codec) (p : PktFlags) (ops : List Op) (s : Session)
    (h : s.TimestampsImplyFlags p) : (run c p s ops).TimestampsImplyFlags p := by
  induction ops generalizing s with
  | nil => exact h
  | cons op ops ih =>
    refine ih (step c p s op) ?_
    cases op with
    | packet now_ms msg => exact process_packet_timestamps_imply_flags c p s now_ms msg h
    | send now_ms now_arm => exact update_send_timestamps_imply_flags c p s now_ms now_arm h

/-- C9: in every state reached from a fresh session (all timestamps 0, mask 0) by a
sequence of `process_packet` and `update_send` calls at arbitrary clock readings,
for each of the five timestamped types X, `last_X_ms != 0` implies that flag X is
set in `packets_received_mask`. -/
theorem reachable_timestamps_imply_flags (c : Codec) (p : PktFlags) (s0 : Session)
    (h0 : s0.Fresh) (ops : List Op) :
    ((run c p s0 ops).last_location_ms ≠ 0 →
      bitSet (run c p s0 ops).packets_received_mask p.PKT_LOCATION) ∧
    ((run c p s0 ops).last_basic_id_ms ≠ 0 →
      bitSet (run c p s0 ops).packets_received_mask p.PKT_BASIC_ID) ∧
    ((run c p s0 ops).last_self_id_ms ≠ 0 →
      bitSet (run c p s0 ops).packets_received_mask p.PKT_SELF_ID) ∧
    ((run c p s0 ops).last_system_ms ≠ 0 →
      bitSet (run c p s0 ops).packets_received_mask p.PKT_SYSTEM) ∧
    ((run c p s0 ops).last_operator_id_ms ≠ 0 →
      bitSet (run c p s0 ops).packets_received_mask p.PKT_OPERATOR_ID) := by
  obtain ⟨_, _, t1, t2, t3, t4, t5⟩ := h0
  exact run_timestamps_imply_flags c p ops s0
    ⟨fun h => absurd t1 h, fun h => absurd t2 h, fun h => absurd t3 h,
      fun h => absurd t5 h, fun h => absurd t4 h⟩

/-- The theorem of C9 at the sample parameters: after a LOCATION frame at 500 ms and
a SYSTEM frame at 0 ms, the location timestamp is nonzero and its flag is set. -/
theorem reachable_timestamps_imply_flags_witness :
    freshSession.Fresh ∧
      bitSet
        (run sampleCodec sampleFlags freshSession
          [Op.packet 500 { msgid := 12901, payload := [47, 8] },
            Op.packet 0 { msgid := 12904, payload := [47, 8] }]).packets_received_mask
        sampleFlags.PKT_LOCATION :=
  ⟨by decide,
    (reachable_timestamps_imply_flags sampleCodec sampleFlags freshSession (by decide)
      [Op.packet 500 { msgid := 12901, payload := [47, 8] },
        Op.packet 0 { msgid := 12904, payload := [47, 8] }]).1 (by decide)⟩

/-! ## The heartbeat tick -/

/-- C10, as stated, fails: the fresh session has `last_hb_ms == 0`, and its first
`update_send`, at a clock reading of 500 ms, emits nothing and changes nothing. -/
theorem update_send_silent_at_500_from_fresh :
    freshSession.last_hb_ms = 0 ∧
      update_send sampleCodec freshSession 500 500 = (freshSession, []) := by
  decide

/-- C10, amended: for every `last_hb_ms` and every 32-bit clock reading,
`update_send` emits a heartbeat frame and an arm status frame and sets
`last_hb_ms = now` if and only if the age `(now - last_hb_ms) mod 2^32` is at least
1000; below that it emits nothing and leaves the state as it is. A `last_hb_ms` of 0
is not treated apart: a session whose `last_hb_ms` is still 0 emits on its first
`update_send` exactly when the clock reads 1000 ms or more. -/
theorem update_send_emits_iff (c : Codec) (s : Session) (now now_arm : Nat)
    (hnow : now < 4294967296) (hs : s.last_hb_ms < 4294967296) :
    (((update_send c s now now_arm).2 =
          [Frame.heartbeat s.chan c.MAV_TYPE_ODID c.MAV_AUTOPILOT_ARDUPILOTMEGA 0 0 0,
            arm_status_send c s now_arm] ∧
        (update_send c s now now_arm).1.last_hb_ms = now) ↔
      ageSpec now s.last_hb_ms ≥ 1000) ∧
    (ageSpec now s.last_hb_ms < 1000 → update_send c s now now_arm = (s, [])) ∧
    (s.last_hb_ms = 0 → ((update_send c s now now_arm).2 ≠ [] ↔ 1000 ≤ now)) := by
  have e := sub32_ge_iff now s.last_hb_ms 1000 hnow hs
  simp only [Nat.cast_ofNat] at e
  refine ⟨?_, ?_, ?_⟩
  · rw [← e]
    unfold update_send
    split_ifs with h
    · exact ⟨fun _ => h, fun _ => ⟨rfl, rfl⟩⟩
    · simp [h]
  · intro hlt
    have h : ¬ sub32 now s.last_hb_ms ≥ 1000 := by
      rw [e]; omega
    simp only [update_send, if_neg h]
  · intro h0
    have e0 : sub32 now s.last_hb_ms = now := by
      rw [h0]; unfold sub32; omega
    unfold update_send
    rw [e0]
    split_ifs with h
    · simp only [ne_eq, List.cons_ne_nil, not_false_eq_true, true_iff]
      exact h
    · simp only [ne_eq, not_true_eq_false, false_iff]
      exact h

/-- The theorem of C10 (amended) at the fresh session, read at 1000 ms. -/
theorem update_send_emits_iff_witness :
    (update_send sampleCodec freshSession 1000 1000).2 =
        [Frame.heartbeat 0 34 3 0 0 0,
          arm_status_send sampleCodec freshSession 1000] ∧
      (update_send sampleCodec freshSession 1000 1000).1.last_hb_ms = 1000 :=
  ((update_send_emits_iff sampleCodec freshSession 1000 1000 (by decide) (by decide)).1).2
    (by decide)

/-! ## Heartbeat cadence -/

theorem update_send_cases (c : Codec) (s : Session) (now_ms now_arm : Nat)
    (hle : s.last_hb_ms ≤ now_ms) (hnow : now_ms < 4294967296) :
    (s.last_hb_ms + 1000 ≤ now_ms ∧ (update_send c s now_ms now_arm).1.last_hb_ms = now_ms ∧
        (update_send c s now_ms now_arm).2 ≠ []) ∨
      (now_ms < s.last_hb_ms + 1000 ∧ update_send c s now_ms now_arm = (s, [])) := by
  have e : sub32 now_ms s.last_hb_ms = now_ms - s.last_hb_ms := by
    unfold sub32; omega
  unfold update_send
  rw [e]
  split_ifs with h
  · left
    exact ⟨by omega, rfl, by simp⟩
  · right
    exact ⟨by omega, rfl⟩

theorem sendStates_chain (c : Codec) (ts : List (Nat × Nat)) (s : Session)
    (hmono : List.Chain (fun a b => a ≤ b) s.last_hb_ms (ts.map Prod.fst))
    (hwrap : ∀ t ∈ ts, t.1 < 4294967296) :
    List.Chain (fun a b => a ≤ b) s.last_hb_ms
        ((sendStates c s ts).map Session.last_hb_ms) ∧
      List.Chain (fun a b => a + 1000 ≤ b) s.last_hb_ms (emissionReadings c s ts) := by
  induction ts generalizing s with
  | nil => exact ⟨List.Chain.nil, List.Chain.nil⟩
  | cons t rest ih =>
    rw [List.map_cons, List.chain_cons] at hmono
    obtain ⟨hle, hrest⟩ := hmono
    have ht : t.1 < 4294967296 := hwrap t (List.mem_cons_self _ _)
    have hwrap2 : ∀ u ∈ rest, u.1 < 4294967296 :=
      fun u hu => hwrap u (List.mem_cons_of_mem _ hu)
    rcases update_send_cases c s t.1 t.2 hle ht with ⟨hge, hlast, hne⟩ | ⟨hlt, heq⟩
    · have ih2 := ih (update_send c s t.1 t.2).1 (by rw [hlast]; exact hrest) hwrap2
      rw [hlast] at ih2
      constructor
      · simp only [sendStates, List.map_cons, List.chain_cons, hlast]
        exact ⟨hle, ih2.1⟩
      · simp only [emissionReadings, if_neg hne, List.chain_cons]
        exact ⟨hge, ih2.2⟩
    · have hrest2 : List.Chain (fun a b => a ≤ b) s.last_hb_ms (rest.map Prod.fst) := by
        cases hr : rest.map Prod.fst with
        | nil => exact List.Chain.nil
        | cons u us =>
          rw [hr, List.chain_cons] at hrest
          rw [List.chain_cons]
          exact ⟨le_trans hle hrest.1, hrest.2⟩
      have ih2 := ih s hrest2 hwrap2
      constructor
      · simp only [sendStates, List.map_cons, List.chain_cons, heq]
        exact ⟨le_refl _, ih2.1⟩
      · simp only [emissionReadings, heq, if_true]
        exact ih2.2

/-- C11: for every sequence of `update_send` calls made at non-decreasing clock
readings below `2^32` (no wrap), starting from a fresh session: `last_hb_ms` never
decreases from one call to the next, and the clock readings of any two consecutive
heartbeat emissions differ by at least 1000 ms. -/
theorem heartbeat_cadence (c : Codec) (s0 : Session) (h0 : s0.Fresh)
    (ts : List (Nat × Nat)) (hmono : List.Chain' (fun a b => a ≤ b) (ts.map Prod.fst))
    (hwrap : ∀ t ∈ ts, t.1 < 4294967296) :
    List.Chain' (fun a b => a ≤ b)
        (s0.last_hb_ms :: (sendStates c s0 ts).map Session.last_hb_ms) ∧
      List.Chain' (fun a b => a + 1000 ≤ b) (emissionReadings c s0 ts) := by
  have hb0 : s0.last_hb_ms = 0 := h0.2.1
  have hstart : List.Chain (fun a b => a ≤ b) s0.last_hb_ms (ts.map Prod.fst) := by
    rw [hb0]
    cases hr : ts.map Prod.fst with
    | nil => exact List.Chain.nil
    | cons u us =>
      rw [hr] at hmono
      exact List.Chain.cons (Nat.zero_le u) hmono
  obtain ⟨h1, h2⟩ := sendStates_chain c ts s0 hstart hwrap
  refine ⟨h1, ?_⟩
  cases he : emissionReadings c s0 ts with
  | nil => exact List.chain'_nil
  | cons e es =>
    rw [he, List.chain_cons] at h2
    exact h2.2

/-- The theorem of C11 at the fresh session with ticks every 500 ms up to 2500 ms. -/
theorem heartbeat_cadence_witness :
    List.Chain' (fun a b => a ≤ b)
        (freshSession.last_hb_ms ::
          (sendStates sampleCodec freshSession
            [(0, 0), (500, 500), (1000, 1000), (1500, 1500), (2000, 2000),
              (2500, 2500)]).map Session.last_hb_ms) ∧
      List.Chain' (fun a b => a + 1000 ≤ b)
        (emissionReadings sampleCodec freshSession
          [(0, 0), (500, 500), (1000, 1000), (1500, 1500), (2000, 2000), (2500, 2500)]) :=
  heartbeat_cadence sampleCodec freshSession (by decide) _ (by simp) (by decide)

/-! ## Clock wrap -/

/-- C12: for every 32-bit timestamp `last` and every elapsed time `d` below `2^32`,
when the clock reads `(last + d) mod 2^32` the age the code computes is `d`, wrap or
no wrap; so `location_valid()` at that reading, for a nonzero `last_location_ms`, is
true exactly when `d < 2000`; in particular with `last_location_ms = 2^32 - 1` and
the clock wrapped to 99, an age of 100 ms, it returns true. -/
theorem age_across_wrap (last d : Nat) (hlast : last < 4294967296) (hd : d < 4294967296) :
    sub32 ((last + d) % 4294967296) last = d ∧
      (∀ s : Session, s.last_location_ms = last → last ≠ 0 →
        (location_valid s ((last + d) % 4294967296) = true ↔ d < 2000)) ∧
      (∀ s : Session, s.last_location_ms = 4294967295 → location_valid s 99 = true) := by
  have e : sub32 ((last + d) % 4294967296) last = d := by
    unfold sub32; omega
  refine ⟨e, ?_, ?_⟩
  · intro s hs h0
    unfold location_valid
    rw [hs, e]
    simp [h0]
  · intro s hs
    unfold location_valid
    rw [hs]
    decide

/-- The theorem of C12 at `last = 2^32 - 1` and `d = 100`: the clock has wrapped to
99 and the age is 100. -/
theorem age_across_wrap_witness :
    sub32 ((4294967295 + 100) % 4294967296) 4294967295 = 100 :=
  (age_across_wrap 4294967295 100 (by decide) (by decide)).1

/-! ## Query thresholds against arm thresholds -/

theorem location_valid_checkPasses (s : Session) (now : Nat)
    (h : location_valid s now = true) : checkPasses s.last_location_ms now 3000 := by
  unfold location_valid at h
  simp only [Bool.and_eq_true, decide_eq_true_eq] at h
  exact ⟨h.1, by omega⟩

theorem system_valid_checkPasses (s : Session) (now : Nat)
    (h : system_valid s now = true) :
    checkPasses s.last_basic_id_ms now 22000 ∧ checkPasses s.last_self_id_ms now 22000 ∧
      checkPasses s.last_operator_id_ms now 22000 ∧
      checkPasses s.last_system_ms now 22000 := by
  unfold system_valid at h
  split_ifs at h with h0
  simp only [Bool.and_eq_true, decide_eq_true_eq] at h
  simp only [not_or] at h0
  obtain ⟨⟨⟨a1, a2⟩, a3⟩, a4⟩ := h
  obtain ⟨z1, z2, z3, z4⟩ := h0
  exact ⟨⟨z3, by omega⟩, ⟨z2, by omega⟩, ⟨z4, by omega⟩, ⟨z1, by omega⟩⟩

/-- C13: for every session state and clock reading, if `location_valid()` returns
true then the arm evaluator, read at the same clock reading, does not fail its
location check: its frame does not carry "missing location message"; if
`system_valid()` returns true then it fails none of its basic_id, self_id,
operator_id and system checks: its frame carries none of their four reasons; and
when both queries are true the arm status frame is `GOOD_TO_ARM` with an empty
reason, or `PRE_ARM_FAIL_GENERIC` with "Bad location" or "Bad operator location",
never a "missing ... message". -/
theorem valid_queries_imply_fresh_checks (c : Codec) (s : Session) (now : Nat) :
    (location_valid s now = true → ∀ st,
      arm_status_send c s now ≠
        Frame.open_drone_id_arm_status s.chan st "missing location message") ∧
    (system_valid s now = true → ∀ st,
      arm_status_send c s now ≠
          Frame.open_drone_id_arm_status s.chan st "missing basic_id message" ∧
        arm_status_send c s now ≠
          Frame.open_drone_id_arm_status s.chan st "missing self_id message" ∧
        arm_status_send c s now ≠
          Frame.open_drone_id_arm_status s.chan st "missing operator_id message" ∧
        arm_status_send c s now ≠
          Frame.open_drone_id_arm_status s.chan st "missing system message") ∧
    (location_valid s now = true → system_valid s now = true →
      arm_status_send c s now =
          Frame.open_drone_id_arm_status s.chan c.MAV_ODID_GOOD_TO_ARM "" ∨
        arm_status_send c s now =
          Frame.open_drone_id_arm_status s.chan c.MAV_ODID_PRE_ARM_FAIL_GENERIC
            "Bad location" ∨
        arm_status_send c s now =
          Frame.open_drone_id_arm_status s.chan c.MAV_ODID_PRE_ARM_FAIL_GENERIC
            "Bad operator location") := by
  refine ⟨?_, ?_, ?_⟩
  · intro hl st
    have c1 := location_valid_checkPasses s now hl
    rw [checkPasses_iff] at c1
    simp only [arm_status_send, if_neg c1]
    split_ifs <;> simp
  · intro hs st
    obtain ⟨c2, c3, c4, c5⟩ := system_valid_checkPasses s now hs
    rw [checkPasses_iff] at c2 c3 c4 c5
    by_cases c1 : s.last_location_ms = 0 ∨ sub32 now s.last_location_ms > 3000
    · simp only [arm_status_send, if_pos c1]
      simp
    · simp only [arm_status_send, if_neg c1, if_neg c2, if_neg c3, if_neg c4, if_neg c5]
      split_ifs <;> simp
  · intro hl hs
    have c1 := location_valid_checkPasses s now hl
    obtain ⟨c2, c3, c4, c5⟩ := system_valid_checkPasses s now hs
    rw [checkPasses_iff] at c1 c2 c3 c4 c5
    simp only [arm_status_send, if_neg c1, if_neg c2, if_neg c3, if_neg c4, if_neg c5]
    split_ifs
    · right; left; rfl
    · right; right; rfl
    · left; rfl

/-- The theorem of C13 at the sample session, read at 1000 ms: `location_valid()` is
true and the frame of the evaluator is not a "missing location message". -/
theorem valid_queries_imply_fresh_checks_witness :
    arm_status_send sampleCodec sampleSession 1000 ≠
      Frame.open_drone_id_arm_status sampleSession.chan 1 "missing location message" :=
  (valid_queries_imply_fresh_checks sampleCodec sampleSession 1000).1 (by decide) 1

/-! ## Cold start -/

theorem receive_loop_zero {σ : Type} (c : Codec) (p : PktFlags)
    (parse : Nat → σ → Nat → σ × Option mavlink_message_t) (clock : Nat → Nat) (i : Nat)
    (l : Link σ) : receive_loop c p parse clock 0 i l = l := by
  rfl

theorem update_receive_idle {σ : Type} (c : Codec) (p : PktFlags)
    (parse : Nat → σ → Nat → σ × Option mavlink_message_t) (clock : Nat → Nat)
    (l : Link σ) : update_receive c p parse clock 0 l = l := by
  rfl

theorem coldStartTick_silent {σ : Type} (c : Codec) (p : PktFlags)
    (parse : Nat → σ → Nat → σ × Option mavlink_message_t) (l0 : Link σ)
    (h0 : l0.session.Fresh) (k : Nat) (hk : 10 * k < 1000) :
    coldStartTick c p parse l0 k = (l0, []) := by
  have hb : l0.session.last_hb_ms = 0 := h0.2.1
  have quiet : ∀ t, t < 1000 → update_send c l0.session t t = (l0.session, []) := by
    intro t ht
    have h : ¬ sub32 t l0.session.last_hb_ms ≥ 1000 := by
      rw [hb]; unfold sub32; omega
    simp only [update_send, if_neg h]
  induction k with
  | zero =>
    simp only [coldStartTick, update, quiet 0 (by omega), update_receive_idle]
  | succ k ih =>
    have ih2 := ih (by omega)
    simp only [coldStartTick, update, ih2, quiet (10 * (k + 1)) hk, update_receive_idle]

/-- C14: cold start. For a fresh session on a link that delivers no bytes, with
`update` called at the clock readings 0, 10, 20, ... ms: no frame is emitted by any
call at a reading below 1000 ms, and the call at 1000 ms emits exactly one heartbeat
followed by exactly one arm status frame, with code `PRE_ARM_FAIL_GENERIC` and reason
"missing location message". -/
theorem cold_start {σ : Type} (c : Codec) (p : PktFlags)
    (parse : Nat → σ → Nat → σ × Option mavlink_message_t) (l0 : Link σ)
    (h0 : l0.session.Fresh) :
    (∀ k, 10 * k < 1000 → (coldStartTick c p parse l0 k).2 = []) ∧
      (coldStartTick c p parse l0 100).2 =
        [Frame.heartbeat l0.session.chan c.MAV_TYPE_ODID c.MAV_AUTOPILOT_ARDUPILOTMEGA 0 0 0,
          Frame.open_drone_id_arm_status l0.session.chan c.MAV_ODID_PRE_ARM_FAIL_GENERIC
            "missing location message"] := by
  constructor
  · intro k hk
    rw [coldStartTick_silent c p parse l0 h0 k hk]
  · have hb : l0.session.last_hb_ms = 0 := h0.2.1
    have hl : l0.session.last_location_ms = 0 := h0.2.2.1
    have h : sub32 1000 l0.session.last_hb_ms ≥ 1000 := by
      rw [hb]; decide
    show (update c p parse _ (coldStartTick c p parse l0 99).1 1000 1000 0).2 = _
    rw [coldStartTick_silent c p parse l0 h0 99 (by decide)]
    simp only [update, update_send, if_pos h, arm_status_send, hl, true_or, if_true]

/-- The theorem of C14 at the sample parameters. -/
theorem cold_start_witness :
    (coldStartTick sampleCodec sampleFlags sampleParser freshLink 100).2 =
      [Frame.heartbeat 0 34 3 0 0 0,
        Frame.open_drone_id_arm_status 0 1 "missing location message"] :=
  (cold_start sampleCodec sampleFlags sampleParser freshLink (by decide)).2

/-! ## The channel registry and the heartbeat frames -/

/-- C15: with a registry of at most 256 entries, for every registry content, channel
id and buffer: when the id is below `MAVLINK_COMM_NUM_BUFFERS` (the length of the
registry) and its entry is bound to endpoint `e`, `comm_send_buffer` makes one
`write` call, to `e`, with the first `len` bytes of the buffer (exactly `len` bytes
when the buffer holds that many), and the registry is as before; when the id is out
of range or its entry is null, it writes nothing and the registry is as before. -/
theorem comm_send_buffer_spec (serial_ports : List (Option Nat))
    (hN : serial_ports.length ≤ 256) (chan : Nat) (buf : List Nat) (len : Nat) :
    (∀ e, chan < serial_ports.length → serial_ports.getD chan none = some e →
      comm_send_buffer serial_ports chan buf len = (serial_ports, [(e, buf.take len)]) ∧
      (len ≤ buf.length → (buf.take len).length = len)) ∧
    (chan ≥ serial_ports.length ∨ serial_ports.getD chan none = none →
      comm_send_buffer serial_ports chan buf len = (serial_ports, [])) := by
  constructor
  · intro e hlt he
    have hmod : chan % 256 = chan := Nat.mod_eq_of_lt (by omega)
    constructor
    · have hc : ¬ (chan ≥ serial_ports.length ∨
          serial_ports.getD (chan % 256) none = none) := by
        rw [hmod, he]
        simp only [not_or, not_le]
        exact ⟨hlt, by simp⟩
      simp only [comm_send_buffer, if_neg hc]
      rw [hmod, he]
    · intro hlen
      rw [List.length_take]
      omega
  · intro h
    by_cases hge : chan ≥ serial_ports.length
    · simp only [comm_send_buffer, if_pos (Or.inl hge : _ ∨ _)]
    · have hmod : chan % 256 = chan := Nat.mod_eq_of_lt (by omega)
      have hnone : serial_ports.getD chan none = none := by
        rcases h with h | h
        · exact absurd h hge
        · exact h
      have hc : chan ≥ serial_ports.length ∨
          serial_ports.getD (chan % 256) none = none := by
        rw [hmod]; exact Or.inr hnone
      simp only [comm_send_buffer, if_pos hc]

/-- The theorem of C15 at a registry of four entries with channel 1 bound to
endpoint 7. -/
theorem comm_send_buffer_spec_witness :
    comm_send_buffer [none, some 7, none, none] 1 [254, 9, 0, 3] 3 =
      ([none, some 7, none, none], [(7, [254, 9, 0])]) :=
  ((comm_send_buffer_spec [none, some 7, none, none] (by decide) 1 [254, 9, 0, 3] 3).1 7
    (by decide) (by decide)).1

theorem MAVLinkSerial_in_range (MAVLINK_COMM_0 : Nat) (serial_ports : List (Option Nat))
    (serial chan : Nat) (hbase : MAVLINK_COMM_0 ≤ chan)
    (hlt : chan - MAVLINK_COMM_0 < serial_ports.length) (hN : serial_ports.length ≤ 256) :
    MAVLinkSerial MAVLINK_COMM_0 serial_ports serial chan =
      some (serial_ports.set (chan - MAVLINK_COMM_0) (some serial)) := by
  have e : (((chan : Int) - (MAVLINK_COMM_0 : Int)) % 256).toNat = chan - MAVLINK_COMM_0 := by
    omega
  simp only [MAVLinkSerial, e, if_pos hlt]

/-- C16, at the failing input: with `MAVLINK_COMM_0 = 0` and a registry of four
entries, constructing a session on channel 4 stores past the end of the array
(undefined behaviour, not a no-op that keeps the registry); on channel 3 the store
is in range and changes that entry only. -/
theorem constructor_store_past_the_array :
    MAVLinkSerial 0 [none, none, none, none] 7 4 = none ∧
      MAVLinkSerial 0 [none, none, none, none] 7 3 = some [none, none, none, some 7] := by
  decide

/-- C18: for every session state and clock readings, one `update_send` call either
emits nothing and leaves the whole state unchanged, or emits exactly two frames in
this order: the heartbeat with type `MAV_TYPE_ODID`, autopilot
`MAV_AUTOPILOT_ARDUPILOTMEGA` and zero base mode, custom mode and system status,
then the arm status frame of the arm evaluator on the session; in that case
`last_hb_ms` (set to the clock reading) is the only member that changes. -/
theorem update_send_frame_effect (c : Codec) (s : Session) (now now_arm : Nat) :
    update_send c s now now_arm = (s, []) ∨
      ((update_send c s now now_arm).2 =
          [Frame.heartbeat s.chan c.MAV_TYPE_ODID c.MAV_AUTOPILOT_ARDUPILOTMEGA 0 0 0,
            arm_status_send c s now_arm] ∧
        (update_send c s now now_arm).1.last_hb_ms = now ∧
        { (update_send c s now now_arm).1 with last_hb_ms := s.last_hb_ms } = s) := by
  unfold update_send
  split_ifs with h
  · right
    exact ⟨rfl, rfl, rfl⟩
  · left
    rfl

/-! ## The receive loop -/

theorem process_packet_chan (c : Codec) (p : PktFlags) (s : Session) (now_ms : Nat)
    (msg : mavlink_message_t) : (process_packet c p s now_ms msg).chan = s.chan := by
  unfold process_packet
  split_ifs <;> rfl

theorem receive_loop_spec {σ : Type} (c : Codec) (p : PktFlags)
    (parse : Nat → σ → Nat → σ × Option mavlink_message_t) (clock : Nat → Nat)
    (n : Nat) (i : Nat) (l : Link σ) (h : n ≤ l.rx.length) :
    receive_loop c p parse clock n i l =
      { session := run c p l.session
          (completedFrames parse l.session.chan clock i l.parser (l.rx.take n))
        parser := parserAfter parse l.session.chan l.parser (l.rx.take n)
        rx := l.rx.drop n } := by
  induction n generalizing i l with
  | zero => rfl
  | succ n ih =>
    obtain ⟨s, ps, rx⟩ := l
    cases rx with
    | nil => simp at h
    | cons b rest =>
      have hn : n ≤ rest.length := by simpa using h
      simp only [receive_loop, serial_read, List.take_succ_cons, List.drop_succ_cons,
        completedFrames, parserAfter]
      cases hq : (parse s.chan ps b).2 with
      | none =>
        rw [ih (i + 1) _ hn]
      | some msg =>
        rw [ih (i + 1) _ hn]
        simp only [process_packet_chan]
        rfl

/-- C17, at the failing input: with 65536 bytes waiting and `available()` reporting
65536, the `uint16_t` variable `nbytes` holds 0 and `update_receive` reads no byte at
all, where it should read the 65536 reported: the link is unchanged. -/
theorem update_receive_reads_nothing_of_65536 :
    fullBufferLink.rx.length = 65536 ∧
      update_receive sampleCodec sampleFlags sampleParser (fun _ => 0) 65536
          fullBufferLink = fullBufferLink :=
  ⟨List.length_replicate _ _, rfl⟩

/-- What `update_receive` does for every input queue and every count `avail` that
`available()` reports at entry (at most the bytes the queue delivers): it reads
`avail mod 2^16` bytes, in arrival order, feeds each one to the frame parser and calls
`process_packet` once for each byte on which the parser reports a completed frame, in
that order; the bytes beyond that count stay in the queue. When `avail` is below 65536
that is the reported count itself: the queue is drained as far as it was reported. -/
theorem update_receive_drains {σ : Type} (c : Codec) (p : PktFlags)
    (parse : Nat → σ → Nat → σ × Option mavlink_message_t) (clock : Nat → Nat)
    (avail : Nat) (l : Link σ) (h : avail ≤ l.rx.length) :
    update_receive c p parse clock avail l =
        { session := run c p l.session
            (completedFrames parse l.session.chan clock 0 l.parser
              (l.rx.take (avail % 65536)))
          parser := parserAfter parse l.session.chan l.parser (l.rx.take (avail % 65536))
          rx := l.rx.drop (avail % 65536) } ∧
      (avail < 65536 →
        update_receive c p parse clock avail l =
          { session := run c p l.session
              (completedFrames parse l.session.chan clock 0 l.parser (l.rx.take avail))
            parser := parserAfter parse l.session.chan l.parser (l.rx.take avail)
            rx := l.rx.drop avail }) := by
  have hn : avail % 65536 ≤ l.rx.length := le_trans (Nat.mod_le _ _) h
  have e := receive_loop_spec c p parse clock (avail % 65536) 0 l hn
  refine ⟨e, ?_⟩
  intro hlt
  have hm : avail % 65536 = avail := Nat.mod_eq_of_lt hlt
  rw [hm] at e
  unfold update_receive
  simp only [hm]
  exact e

/-- The link with four bytes waiting, three of them reported: the LOCATION frame is
processed and one byte stays. -/
theorem update_receive_drains_witness :
    update_receive sampleCodec sampleFlags sampleParser (fun _ => 500) 3 busyLink =
      { session := run sampleCodec sampleFlags busyLink.session
          (completedFrames sampleParser busyLink.session.chan (fun _ => 500) 0
            busyLink.parser (busyLink.rx.take 3))
        parser := parserAfter sampleParser busyLink.session.chan busyLink.parser
          (busyLink.rx.take 3)
        rx := busyLink.rx.drop 3 } :=
  (update_receive_drains sampleCodec sampleFlags sampleParser (fun _ => 500) 3 busyLink
    (by decide)).2 (by decide)

/-! ## Initialisation against the verdicts -/

theorem Session.Fresh.timestampsImplyFlags {s : Session} (h : s.Fresh) (p : PktFlags) :
    s.TimestampsImplyFlags p := by
  obtain ⟨_, _, t1, t2, t3, t4, t5⟩ := h
  exact ⟨fun h => absurd t1 h, fun h => absurd t2 h, fun h => absurd t3 h,
    fun h => absurd t5 h, fun h => absurd t4 h⟩

theorem arm_good_timestamps (c : Codec) (s : Session) (now : Nat)
    (hcodes : c.MAV_ODID_GOOD_TO_ARM ≠ c.MAV_ODID_PRE_ARM_FAIL_GENERIC) (reason : String)
    (h : arm_status_send c s now =
      Frame.open_drone_id_arm_status s.chan c.MAV_ODID_GOOD_TO_ARM reason) :
    s.last_location_ms ≠ 0 ∧ s.last_basic_id_ms ≠ 0 ∧ s.last_self_id_ms ≠ 0 ∧
      s.last_system_ms ≠ 0 ∧ s.last_operator_id_ms ≠ 0 := by
  unfold arm_status_send at h
  simp only [Frame.open_drone_id_arm_status.injEq, true_and] at h
  split_ifs at h with h1 h2 h3 h4 h5 h6 h7
  all_goals first
    | exact absurd h.1.symm hcodes
    | (simp only [not_or] at h1 h2 h3 h4 h5
       exact ⟨h1.1, h2.1, h3.1, h5.1, h4.1⟩)

theorem valid_timestamps (s : Session) (now : Nat) (hs : system_valid s now = true)
    (hl : location_valid s now = true) :
    s.last_location_ms ≠ 0 ∧ s.last_basic_id_ms ≠ 0 ∧ s.last_self_id_ms ≠ 0 ∧
      s.last_system_ms ≠ 0 ∧ s.last_operator_id_ms ≠ 0 := by
  unfold location_valid at hl
  simp only [Bool.and_eq_true, decide_eq_true_eq] at hl
  unfold system_valid at hs
  split_ifs at hs with h0
  simp only [not_or] at h0
  exact ⟨hl.1, h0.2.2.1, h0.2.1, h0.1, h0.2.2.2⟩

theorem initialised_of_timestamps (p : PktFlags) (s : Session)
    (hinv : s.TimestampsImplyFlags p)
    (h : s.last_location_ms ≠ 0 ∧ s.last_basic_id_ms ≠ 0 ∧ s.last_self_id_ms ≠ 0 ∧
      s.last_system_ms ≠ 0 ∧ s.last_operator_id_ms ≠ 0) :
    initialised p s = true := by
  rw [initialised_iff]
  obtain ⟨i1, i2, i3, i4, i5⟩ := hinv
  obtain ⟨t1, t2, t3, t4, t5⟩ := h
  exact ⟨i1 t1, i2 t2, i3 t3, i4 t4, i5 t5⟩

/-- C19: with the two arm status codes different, in every state reached from a
fresh session by a sequence of `process_packet` and `update_send` calls at arbitrary
clock readings, and for every clock reading: if the arm status frame carries
`GOOD_TO_ARM` then `initialised()` returns true, and if `system_valid()` and
`location_valid()` both return true then `initialised()` returns true. -/
theorem verdicts_imply_initialised (c : Codec) (p : PktFlags)
    (hcodes : c.MAV_ODID_GOOD_TO_ARM ≠ c.MAV_ODID_PRE_ARM_FAIL_GENERIC)
    (s0 : Session) (h0 : s0.Fresh) (ops : List Op) (now : Nat) :
    ((∃ reason, arm_status_send c (run c p s0 ops) now =
        Frame.open_drone_id_arm_status (run c p s0 ops).chan c.MAV_ODID_GOOD_TO_ARM
          reason) →
      initialised p (run c p s0 ops) = true) ∧
    (system_valid (run c p s0 ops) now = true → location_valid (run c p s0 ops) now = true →
      initialised p (run c p s0 ops) = true) := by
  have hinv := run_timestamps_imply_flags c p ops s0 (h0.timestampsImplyFlags p)
  constructor
  · rintro ⟨reason, h⟩
    exact initialised_of_timestamps p _ hinv (arm_good_timestamps c _ now hcodes reason h)
  · intro hs hl
    exact initialised_of_timestamps p _ hinv (valid_timestamps _ now hs hl)

/-- The theorem of C19 at the sample parameters, after the five required frames. -/
theorem verdicts_imply_initialised_witness :
    initialised sampleFlags (run sampleCodec sampleFlags freshSession fullSetOps) = true :=
  (verdicts_imply_initialised sampleCodec sampleFlags (by decide) freshSession (by decide)
    fullSetOps 1000).1 ⟨"", by decide⟩

theorem process_packet_location_ms (c : Codec) (p : PktFlags) (s : Session) (now_ms : Nat)
    (msg : mavlink_message_t) :
    (process_packet c p s now_ms msg).last_location_ms =
      if msg.msgid = c.MAVLINK_MSG_ID_OPEN_DRONE_ID_LOCATION then now_ms
      else s.last_location_ms := by
  unfold process_packet
  split_ifs <;> rfl

theorem update_send_location_ms (c : Codec) (s : Session) (now_ms now_arm : Nat) :
    (update_send c s now_ms now_arm).1.last_location_ms = s.last_location_ms := by
  unfold update_send
  split_ifs <;> rfl

theorem run_location_ms_zero (c : Codec) (p : PktFlags) (ops : List Op) (s : Session)
    (hs : s.last_location_ms = 0)
    (hops : ∀ t m, Op.packet t m ∈ ops →
      m.msgid = c.MAVLINK_MSG_ID_OPEN_DRONE_ID_LOCATION → t = 0) :
    (run c p s ops).last_location_ms = 0 := by
  induction ops generalizing s with
  | nil => exact hs
  | cons op ops ih =>
    refine ih (step c p s op) ?_ (fun t m hm => hops t m (List.mem_cons_of_mem _ hm))
    cases op with
    | packet t m =>
      show (process_packet c p s t m).last_location_ms = 0
      rw [process_packet_location_ms]
      split_ifs with h
      · exact hops t m (List.mem_cons_self _ _) h
      · exact hs
    | send t ta =>
      show (update_send c s t ta).1.last_location_ms = 0
      rw [update_send_location_ms]
      exact hs

/-- C20: a LOCATION frame processed while the clock reads 0 sets the LOCATION flag
and leaves `last_location_ms` at 0; then, after every sequence of calls in which no
LOCATION frame is processed at a nonzero reading, and for every clock reading,
`location_valid()` returns false and the arm evaluator reports
"missing location message". A LOCATION frame processed at a nonzero reading `t` makes
`location_valid()` true when queried at the same reading. -/
theorem location_processed_at_clock_zero (c : Codec) (p : PktFlags) (s : Session)
    (msg : mavlink_message_t)
    (hmsg : msg.msgid = c.MAVLINK_MSG_ID_OPEN_DRONE_ID_LOCATION) :
    bitSet (process_packet c p s 0 msg).packets_received_mask p.PKT_LOCATION ∧
    (process_packet c p s 0 msg).last_location_ms = 0 ∧
    (∀ ops : List Op,
      (∀ t m, Op.packet t m ∈ ops →
        m.msgid = c.MAVLINK_MSG_ID_OPEN_DRONE_ID_LOCATION → t = 0) →
      ∀ now,
        location_valid (run c p (process_packet c p s 0 msg) ops) now = false ∧
        arm_status_send c (run c p (process_packet c p s 0 msg) ops) now =
          Frame.open_drone_id_arm_status (run c p (process_packet c p s 0 msg) ops).chan
            c.MAV_ODID_PRE_ARM_FAIL_GENERIC "missing location message") ∧
    (∀ t, t ≠ 0 → location_valid (process_packet c p s t msg) t = true) := by
  have e : ∀ t, process_packet c p s t msg =
      { s with
        location := c.mavlink_msg_open_drone_id_location_decode msg
        packets_received_mask := s.packets_received_mask ||| p.PKT_LOCATION
        last_location_ms := t } := by
    intro t
    simp only [process_packet, hmsg, if_true]
  refine ⟨?_, ?_, ?_, ?_⟩
  · rw [e]
    exact bitSet_or_self _ _
  · rw [e]
  · intro ops hops now
    have hz := run_location_ms_zero c p ops (process_packet c p s 0 msg) (by rw [e]) hops
    constructor
    · simp [location_valid, hz]
    · simp only [arm_status_send, hz, true_or, if_true]
  · intro t ht
    rw [e]
    have hsub : sub32 t t = 0 := by unfold sub32; omega
    simp [location_valid, hsub, ht]

/-- The theorem of C20 at the sample parameters: LOCATION at clock 0, then a tick and
a BASIC_ID frame; the location is not valid at 1500 ms. -/
theorem location_processed_at_clock_zero_witness :
    location_valid
        (run sampleCodec sampleFlags
          (process_packet sampleCodec sampleFlags freshSession 0
            { msgid := 12901, payload := [47, 8] })
          [Op.send 1000 1000, Op.packet 1200 { msgid := 12900, payload := [1, 2] }])
        1500 = false :=
  (((location_processed_at_clock_zero sampleCodec sampleFlags freshSession
    { msgid := 12901, payload := [47, 8] } rfl).2.2.1
      [Op.send 1000 1000, Op.packet 1200 { msgid := 12900, payload := [1, 2] }]
      (by
        intro t m hm hid
        simp only [List.mem_cons, List.mem_singleton, Op.packet.injEq, List.not_mem_nil,
          or_false, false_or, reduceCtorEq] at hm
        rw [hm.2] at hid
        exact absurd hid (by decide))) 1500).1

end RemoteID
